import Mathlib

/-!
Prayer Keeper (PebbleKit JS companion): verification development

A shallow embedding of the phone-side JavaScript of the Prayer Keeper watch app
(`src/pkjs/prayer_times.js`, `src/pkjs/index.js`, `src/pkjs/location.js`,
`src/pkjs/timeline.js`, `src/pkjs/settings.js`).

Conventions of the embedding

* A JavaScript `Date` is its number of milliseconds since the epoch, an `Int`.
  `a > b` on two dates and `a - b` are the comparison and difference of those
  numbers, and `Math.floor(x / 1000)` on an integral `x` is `Int.fdiv x 1000`.
* A JavaScript number is the rational value of its IEEE double; a subtraction of
  coordinates is the exact difference rounded to the nearest double.
* Asynchronous callbacks are run in sequence; what the environment answers (the
  clock, the GPS outcome, the geocoder's name) is an explicit argument.
* Calls that leave the module under study are recorded in a trace of `Effect`s.
* Built-in functions of the platform (`Date` getters, `JSON`, URI coding, number
  parsing) are parameters; an exception is the result `none`.
-/

namespace PrayerKeeper

/-! ## prayer_times.js -/

/-- The object returned by `calculatePrayerTimes`: six instants. -/
structure PrayerTimes where
  fajr : Int
  sunrise : Int
  dhuhr : Int
  asr : Int
  maghrib : Int
  isha : Int
deriving DecidableEq, Repr

/-- One element `{ name, time }` of the array scanned by `getNextPrayer`. -/
structure PrayerEntry where
  name : String
  time : Int
deriving DecidableEq, Repr

/-- The object returned by `getNextPrayer`. `time := none` is JavaScript `null`;
`isTomorrow := false` stands for the property being absent (falsy). -/
structure NextPrayer where
  name : String
  time : Option Int
  countdownSeconds : Int
  isTomorrow : Bool
deriving DecidableEq, Repr

/-- The array literal `prayers` of `getNextPrayer`, in source order. -/
def prayers (pt : PrayerTimes) : List PrayerEntry :=
  [ { name := "Fajr", time := pt.fajr },
    { name := "Sunrise", time := pt.sunrise },
    { name := "Dhuhr", time := pt.dhuhr },
    { name := "Asr", time := pt.asr },
    { name := "Maghrib", time := pt.maghrib },
    { name := "Isha", time := pt.isha } ]

/-- The object returned after the loop of `getNextPrayer`: all prayers passed. -/
def tomorrowSentinel : NextPrayer :=
  { name := "Fajr", time := none, countdownSeconds := -1, isTomorrow := true }

/-- The object returned from inside the loop of `getNextPrayer` for entry `p`. -/
def upcoming (p : PrayerEntry) (now : Int) : NextPrayer :=
  { name := p.name, time := some p.time,
    countdownSeconds := Int.fdiv (p.time - now) 1000, isTomorrow := false }

/-- The `for` loop of `getNextPrayer` over the remaining entries, followed by the
fall-through return. -/
def getNextPrayerLoop : List PrayerEntry → Int → NextPrayer
  | [], _ => tomorrowSentinel
  | p :: rest, now => if p.time > now then upcoming p now else getNextPrayerLoop rest now

/-- Source function `getNextPrayer(prayerTimes, now)`. -/
def getNextPrayer (pt : PrayerTimes) (now : Int) : NextPrayer :=
  getNextPrayerLoop (prayers pt) now

/-- The six instants are strictly increasing (the data-model invariant of a day). -/
def StrictlyIncreasing (pt : PrayerTimes) : Prop :=
  pt.fajr < pt.sunrise ∧ pt.sunrise < pt.dhuhr ∧ pt.dhuhr < pt.asr ∧
    pt.asr < pt.maghrib ∧ pt.maghrib < pt.isha

instance (pt : PrayerTimes) : Decidable (StrictlyIncreasing pt) := by
  unfold StrictlyIncreasing; infer_instance

/-! ## prayer_times.js: calculation, formatting and `getPrayerData` -/

/-- The calculation methods of the Adhan library named in `CALCULATION_METHODS`. -/
inductive CalculationMethod where
  | MuslimWorldLeague | NorthAmerica | Egyptian | UmmAlQura
  | Karachi | Tehran | Singapore | MoonsightingCommittee
deriving DecidableEq, Repr

/-- The two Asr conventions of the Adhan library named in `ASR_METHODS`. -/
inductive Madhab where
  | Shafi | Hanafi
deriving DecidableEq, Repr

/-- The table `CALCULATION_METHODS`: key to calculation method. -/
def CALCULATION_METHODS (key : String) : Option CalculationMethod :=
  if key = "mwl" then some .MuslimWorldLeague
  else if key = "isna" then some .NorthAmerica
  else if key = "egyptian" then some .Egyptian
  else if key = "umm_al_qura" then some .UmmAlQura
  else if key = "karachi" then some .Karachi
  else if key = "tehran" then some .Tehran
  else if key = "singapore" then some .Singapore
  else if key = "moonsighting" then some .MoonsightingCommittee
  else none

/-- The table `ASR_METHODS`: key to Asr convention. -/
def ASR_METHODS (key : String) : Option Madhab :=
  if key = "shafi" then some .Shafi
  else if key = "hanafi" then some .Hanafi
  else none

/-- The external astronomical calculator (`new adhan.PrayerTimes(coordinates, date,
params)`), taken as a pure function of the method, the Asr convention, the
coordinates and the date. -/
abbrev Adhan := CalculationMethod → Madhab → ℚ → ℚ → Int → PrayerTimes

/-- Source function `calculatePrayerTimes(latitude, longitude, date, method, asrMethod)`. The method
strings are optional (`none` is `undefined`); an empty or unknown key falls back to
the Muslim World League method, respectively to the Shafi convention. -/
def calculatePrayerTimes (adhan : Adhan) (latitude longitude : ℚ) (date : Int)
    (method asrMethod : Option String) : PrayerTimes :=
  let method := match method with
    | some m => if m = "" then "mwl" else m
    | none => "mwl"
  let asrMethod := match asrMethod with
    | some m => if m = "" then "shafi" else m
    | none => "shafi"
  let params := (CALCULATION_METHODS method).getD .MuslimWorldLeague
  let madhab := (ASR_METHODS asrMethod).getD .Shafi
  adhan params madhab latitude longitude date

/-- The local-calendar operations of the JavaScript `Date` that the code uses; they
depend on the time zone of the phone and are taken as given. -/
structure LocalCalendar where
  /-- Source call `date.getHours()`, in 0..23 -/
  getHours : Int → Nat
  /-- Source call `date.getMinutes()`, in 0..59 -/
  getMinutes : Int → Nat
  /-- The instant of `d` after `d.setDate(d.getDate() + 1)`: same local time of day,
  next calendar day. -/
  nextDay : Int → Int

/-- The calendar of a phone whose local time is UTC. -/
def utcCalendar : LocalCalendar where
  getHours t := (Int.fmod (Int.fdiv t 3600000) 24).toNat
  getMinutes t := (Int.fmod (Int.fdiv t 60000) 60).toNat
  nextDay t := t + 86400000

/-- Source function `dateToMinutes(date)`. -/
def dateToMinutes (cal : LocalCalendar) (date : Int) : Nat :=
  cal.getHours date * 60 + cal.getMinutes date

/-- Source function `pad(num)`. -/
def pad (num : Nat) : String :=
  if num < 10 then "0" ++ toString num else "" ++ toString num

/-- Source function `formatTime(date, use24Hour)`. -/
def formatTime (cal : LocalCalendar) (date : Int) (use24Hour : Bool) : String :=
  let hours := cal.getHours date
  let minutes := cal.getMinutes date
  if use24Hour then
    pad hours ++ ":" ++ pad minutes
  else
    let ampm := if hours ≥ 12 then "PM" else "AM"
    let hours := hours % 12
    let hours := if hours = 0 then 12 else hours
    toString hours ++ ":" ++ pad minutes ++ " " ++ ampm

/-- The `times` field of the object returned by `getPrayerData`: minutes of day. -/
structure MinuteTimes where
  fajr : Nat
  sunrise : Nat
  dhuhr : Nat
  asr : Nat
  maghrib : Nat
  isha : Nat
deriving DecidableEq, Repr

/-- The `nextPrayer` field of the object returned by `getPrayerData`. -/
structure NextPrayerInfo where
  name : String
  timeFormatted : String
  countdownSeconds : Int
deriving DecidableEq, Repr

/-- The object returned by `getPrayerData`. -/
structure PrayerData where
  times : MinuteTimes
  nextPrayer : NextPrayerInfo
  rawTimes : PrayerTimes
deriving DecidableEq, Repr

/-- The next prayer after the `if (nextPrayer.isTomorrow)` block of `getPrayerData`. -/
def resolveTomorrow (adhan : Adhan) (cal : LocalCalendar) (latitude longitude : ℚ)
    (method asrMethod : Option String) (now : Int) (nextPrayer : NextPrayer) : NextPrayer :=
  if nextPrayer.isTomorrow then
    let tomorrow := cal.nextDay now
    let tomorrowTimes := calculatePrayerTimes adhan latitude longitude tomorrow method asrMethod
    let countdownSeconds := Int.fdiv (tomorrowTimes.fajr - now) 1000
    { name := "Fajr", time := some tomorrowTimes.fajr,
      countdownSeconds := countdownSeconds, isTomorrow := false }
  else nextPrayer

/-- Source function `getPrayerData(latitude, longitude, method, asrMethod, use24Hour)`, with the value
of `new Date()` passed as `now`. The result is `none` when `formatTime` would be
called on `null` (a `TypeError` in the source). -/
def getPrayerData (adhan : Adhan) (cal : LocalCalendar) (latitude longitude : ℚ)
    (method asrMethod : Option String) (use24Hour : Bool) (now : Int) : Option PrayerData :=
  let today := calculatePrayerTimes adhan latitude longitude now method asrMethod
  let nextPrayer := getNextPrayer today now
  let nextPrayer := resolveTomorrow adhan cal latitude longitude method asrMethod now nextPrayer
  match nextPrayer.time with
  | none => none
  | some time =>
    some {
      times := {
        fajr := dateToMinutes cal today.fajr
        sunrise := dateToMinutes cal today.sunrise
        dhuhr := dateToMinutes cal today.dhuhr
        asr := dateToMinutes cal today.asr
        maghrib := dateToMinutes cal today.maghrib
        isha := dateToMinutes cal today.isha }
      nextPrayer := {
        name := nextPrayer.name
        timeFormatted := formatTime cal time use24Hour
        countdownSeconds := nextPrayer.countdownSeconds }
      rawTimes := today }

/-- A sample calculator for evaluation: the six instants at 05:00, 06:30, 12:00,
15:30, 18:00 and 19:30 UTC of the day that contains `date`. -/
def sampleAdhan : Adhan := fun _ _ _ _ date =>
  let midnight := Int.fdiv date 86400000 * 86400000
  { fajr := midnight + 18000000, sunrise := midnight + 23400000,
    dhuhr := midnight + 43200000, asr := midnight + 55800000,
    maghrib := midnight + 64800000, isha := midnight + 70200000 }

/-! ## index.js: retry state -/

/-- The constant `ERROR.LOCATION`. -/
def ERROR_LOCATION : Nat := 1
/-- The constant `ERROR.CALCULATION`. -/
def ERROR_CALCULATION : Nat := 3
/-- The constant `ERROR.APPMESSAGE`. -/
def ERROR_APPMESSAGE : Nat := 4
/-- The constant `MAX_RETRIES`. -/
def MAX_RETRIES : Nat := 3
/-- The constant `RETRY_DELAY`, in milliseconds. -/
def RETRY_DELAY : Nat := 2000

/-- What one call of `retryWithBackoff` does besides updating `retryCount`. -/
inductive RetryAction where
  /-- Source call `setTimeout(fetchAndSendPrayerData, delay)` -/
  | schedule (delay : Nat)
  /-- Source call `sendError(code, message)` -/
  | sendError (code : Nat) (message : String)
deriving DecidableEq, Repr

/-- Source function `retryWithBackoff()`, from the current value of `retryCount` to its new value and
the action taken. -/
def retryWithBackoff (retryCount : Nat) : Nat × RetryAction :=
  if retryCount < MAX_RETRIES then
    let retryCount := retryCount + 1
    let delay := RETRY_DELAY * 2 ^ (retryCount - 1)
    (retryCount, .schedule delay)
  else
    (0, .sendError ERROR_APPMESSAGE "Communication failed")

/-- The outcome of one `Pebble.sendAppMessage` of `sendPrayerDataToWatch`. -/
inductive Outcome where
  | success
  | failure
deriving DecidableEq, Repr

/-- The two callbacks given to `Pebble.sendAppMessage` in `sendPrayerDataToWatch`: on
success `retryCount = 0`, on failure `retryWithBackoff()`. -/
def deliveryCallback (retryCount : Nat) : Outcome → Nat × List RetryAction
  | .success => (0, [])
  | .failure => ((retryWithBackoff retryCount).1, [(retryWithBackoff retryCount).2])

/-- The retry counter and the actions taken over a sequence of delivery outcomes. -/
def runOutcomes (retryCount : Nat) : List Outcome → Nat × List RetryAction
  | [] => (retryCount, [])
  | o :: rest =>
    let step := deliveryCallback retryCount o
    let tail := runOutcomes step.1 rest
    (tail.1, step.2 ++ tail.2)

/-! ## location.js -/

/-- A location object as it travels through `location.js`: the coordinates, and the
optional properties `name`, `accuracy`, `timestamp` and `suggestedMethod` (`none` is
`undefined`). -/
structure Location where
  latitude : ℚ
  longitude : ℚ
  name : Option String
  accuracy : Option ℚ
  timestamp : Option Int
  suggestedMethod : Option String
deriving DecidableEq, Repr

/-- What `localStorage.getItem(LOCATION_CACHE_KEY)` holds: nothing (or the empty
string), a string that `JSON.parse` rejects, or a serialised location object. -/
inductive StoredItem where
  | absent
  | malformed
  | entry (data : Location)
deriving DecidableEq, Repr

/-- The state of `location.js`: the module variables `cachedLocation` and
`cachedTimestamp` (`none` is `null`, respectively `undefined`) and the persisted
item. -/
structure LocState where
  cachedLocation : Option Location
  cachedTimestamp : Option Int
  stored : StoredItem
deriving DecidableEq, Repr

/-- The state of a freshly started process with empty storage. -/
def LocState.initial : LocState :=
  { cachedLocation := none, cachedTimestamp := some 0, stored := .absent }

/-- The constant `CACHE_DURATION`: 5 minutes, in milliseconds. -/
def CACHE_DURATION : Int := 5 * 60 * 1000

/-- The validity of the persisted cache in `getCachedLocation`: 24 hours, in
milliseconds. -/
def PERSISTED_CACHE_VALIDITY : Int := 24 * 60 * 60 * 1000

/-- The expression `data.timestamp || 0`. -/
def timestampOrZero (data : Location) : Int :=
  data.timestamp.getD 0

/-- Source function `suggestMethodByRegion(latitude, longitude)`. -/
def suggestMethodByRegion (latitude longitude : ℚ) : String :=
  if latitude ≥ 25 ∧ latitude ≤ 70 ∧ longitude ≥ -170 ∧ longitude ≤ -50 then "isna"
  else if latitude ≥ 12 ∧ latitude ≤ 35 ∧ longitude ≥ 35 ∧ longitude ≤ 60 then "umm_al_qura"
  else if latitude ≥ 20 ∧ latitude ≤ 35 ∧ longitude ≥ -20 ∧ longitude ≤ 35 then "egyptian"
  else if latitude ≥ 5 ∧ latitude ≤ 40 ∧ longitude ≥ 60 ∧ longitude ≤ 100 then "karachi"
  else if latitude ≥ 25 ∧ latitude ≤ 40 ∧ longitude ≥ 44 ∧ longitude ≤ 63 then "tehran"
  else if latitude ≥ -10 ∧ latitude ≤ 20 ∧ longitude ≥ 95 ∧ longitude ≤ 145 then "singapore"
  else "mwl"

/-- Source function `getCachedLocation()`, with the value of `Date.now()` passed as `now`: the
location returned (`none` is `null`) and the new module state. -/
def getCachedLocation (now : Int) (s : LocState) : Option Location × LocState :=
  match s.cachedLocation with
  | some loc => (some loc, s)
  | none =>
    match s.stored with
    | .entry data =>
      let age := now - timestampOrZero data
      if age < PERSISTED_CACHE_VALIDITY then
        (some data, { s with cachedLocation := some data, cachedTimestamp := data.timestamp })
      else (none, s)
    | .absent => (none, s)
    | .malformed => (none, s)

/-- Source function `saveLocationCache(location)`, with the value of `Date.now()` passed as `now`. -/
def saveLocationCache (now : Int) (location : Location) (s : LocState) : LocState :=
  let cachedLocation := { location with timestamp := some now }
  { s with cachedLocation := some cachedLocation, cachedTimestamp := some now,
           stored := .entry cachedLocation }

/-- Source function `clearCache()`. -/
def clearCache (s : LocState) : LocState :=
  { s with cachedLocation := none, cachedTimestamp := some 0, stored := .absent }

/-- What `navigator.geolocation.getCurrentPosition` answers. -/
inductive GpsOutcome where
  | fix (latitude longitude accuracy : ℚ)
  | error
deriving DecidableEq, Repr

/-- The object passed to an error callback, `{ code, message }`. -/
structure LocationError where
  code : Nat
  message : String
deriving DecidableEq, Repr

deriving instance DecidableEq for Except

/-- The values of `Date.now()` read during one cycle of `fetchAndSendPrayerData`. -/
structure CycleClock where
  /-- In `getCachedLocation`, called first by `fetchAndSendPrayerData` -/
  tFetch : Int
  /-- At the start of `getCurrentLocation` -/
  tRequest : Int
  /-- In the callbacks that run when the GPS has answered -/
  tCallback : Int
  /-- In `saveLocationCache`, when the named location is delivered -/
  tSave : Int
deriving DecidableEq, Repr

/-- The calls that leave `fetchAndSendPrayerData` and the location module, in the order
they are made. -/
inductive Effect where
  /-- Source call `location.getCachedLocation()` called by `fetchAndSendPrayerData` -/
  | readCache
  /-- Source call `processPrayerData(latitude, longitude, locationName, currentSettings)` -/
  | processPrayerData (latitude longitude : ℚ) (locationName : String)
  /-- Source call `sendError(code, message)` -/
  | sendError (code : Nat) (message : String)
  /-- Source call `location.getLocationWithName(...)` -/
  | requestLocation
  /-- Source call `navigator.geolocation.getCurrentPosition(...)` -/
  | gpsRequest
  /-- The HTTP request of `reverseGeocode(latitude, longitude, ...)` -/
  | geocodeRequest (latitude longitude : ℚ)
  /-- Source call `location.saveLocationCache(loc)` -/
  | saveCache
deriving DecidableEq, Repr

/-- Source function `getCurrentLocation(successCallback, errorCallback)`: which callback is invoked and
with what, the requests made and the new module state. -/
def getCurrentLocation (clk : CycleClock) (gps : GpsOutcome) (s : LocState) :
    Except LocationError Location × List Effect × LocState :=
  let now := clk.tRequest
  let inMemoryFresh : Option Location :=
    match s.cachedLocation, s.cachedTimestamp with
    | some loc, some ts => if now - ts < CACHE_DURATION then some loc else none
    | _, _ => none
  match inMemoryFresh with
  | some loc => (.ok loc, [], s)
  | none =>
    match gps with
    | .fix latitude longitude accuracy =>
      let location : Location :=
        { latitude := latitude, longitude := longitude, name := none,
          accuracy := some accuracy, timestamp := some now, suggestedMethod := none }
      (.ok location, [.gpsRequest],
        { s with cachedLocation := some location, cachedTimestamp := some now })
    | .error =>
      match s.cachedLocation with
      | some loc => (.ok loc, [.gpsRequest], s)
      | none =>
        let persistent := getCachedLocation clk.tCallback s
        match persistent.1 with
        | some loc => (.ok loc, [.gpsRequest], persistent.2)
        | none =>
          (.error { code := 1, message := "Location unavailable" }, [.gpsRequest],
            persistent.2)

/-! ### Arithmetic of JavaScript numbers

JavaScript numbers are IEEE 754 doubles. A coordinate is kept as the rational value of
its double; a subtraction is the exact difference rounded to the nearest double. -/

/-- The power `2 ^ e` for an integer exponent. -/
def pow2 (e : Int) : ℚ :=
  if 0 ≤ e then ((2 ^ e.toNat : Nat) : ℚ) else 1 / ((2 ^ (-e).toNat : Nat) : ℚ)

/-- The number of binary digits of `n`, counted with at most `fuel` halvings. -/
def bitLength : Nat → Nat → Nat
  | 0, _ => 0
  | fuel + 1, n => if n = 0 then 0 else bitLength fuel (n / 2) + 1

/-- The binary exponent of a positive rational `q`: the `e` with
`2 ^ e ≤ q < 2 ^ (e + 1)` (numerator and denominator below `2 ^ 2200`, which covers
the doubles and their exact differences). -/
def floorLog2 (q : ℚ) : Int :=
  let e := (bitLength 2200 q.num.natAbs : Int) - (bitLength 2200 q.den : Int)
  if pow2 e ≤ q then e else e - 1

/-- The double nearest to a rational: 53 significant bits, round to nearest, ties to
the even significand, gradual underflow below `2 ^ -1022`; overflow to infinity is
not modelled (coordinates are far below `2 ^ 1024`). -/
def toDouble (q : ℚ) : ℚ :=
  if q = 0 then 0
  else
    let a := |q|
    let e := max (floorLog2 a) (-1022)
    let quantum := pow2 (e - 52)
    let n := a / quantum
    let f := Rat.floor n
    let r := n - f
    let m := if r < 1 / 2 then f else if 1 / 2 < r then f + 1 else if f % 2 = 0 then f else f + 1
    (if q < 0 then -1 else 1) * m * quantum

/-- The expression `a - b` on two JavaScript numbers. -/
def jsSub (a b : ℚ) : ℚ :=
  toDouble (a - b)

/-- The number literal `0.01`: the double nearest to 1/100. -/
def DOUBLE_0_01 : ℚ :=
  toDouble (1 / 100)

/-- The object `{ latitude, longitude, name, suggestedMethod }` that
`getLocationWithName` passes to its success callback. -/
structure NamedLocation where
  latitude : ℚ
  longitude : ℚ
  name : String
  suggestedMethod : String
deriving DecidableEq, Repr

/-- A named location seen as a location object (no `accuracy`, no `timestamp` yet). -/
def NamedLocation.toLocation (loc : NamedLocation) : Location :=
  { latitude := loc.latitude, longitude := loc.longitude, name := some loc.name,
    accuracy := none, timestamp := none, suggestedMethod := some loc.suggestedMethod }

/-- The truthiness test `cached.name` on an optional string. -/
def truthyName : Option String → Option String
  | some n => if n = "" then none else some n
  | none => none

/-- The success callback that `getLocationWithName` gives to `getCurrentLocation`;
`geocodeName` is the name the reverse geocoder calls back with, if it is asked. -/
def nameLocation (clk : CycleClock) (geocodeName : String) (location : Location)
    (s : LocState) : NamedLocation × List Effect × LocState :=
  let cached := getCachedLocation clk.tCallback s
  let geocoded : NamedLocation × List Effect × LocState :=
    ({ latitude := location.latitude, longitude := location.longitude,
       name := geocodeName,
       suggestedMethod := suggestMethodByRegion location.latitude location.longitude },
     [.geocodeRequest location.latitude location.longitude], cached.2)
  match cached.1 with
  | some c =>
    match truthyName c.name with
    | some cname =>
      let latDiff := |jsSub location.latitude c.latitude|
      let lonDiff := |jsSub location.longitude c.longitude|
      if latDiff < DOUBLE_0_01 ∧ lonDiff < DOUBLE_0_01 then
        ({ latitude := location.latitude, longitude := location.longitude,
           name := cname,
           suggestedMethod := suggestMethodByRegion location.latitude location.longitude },
         [], cached.2)
      else geocoded
    | none => geocoded
  | none => geocoded

/-- Source function `getLocationWithName(successCallback, errorCallback)`. -/
def getLocationWithName (clk : CycleClock) (gps : GpsOutcome) (geocodeName : String)
    (s : LocState) : Except LocationError NamedLocation × List Effect × LocState :=
  let current := getCurrentLocation clk gps s
  match current.1 with
  | .ok location =>
    let named := nameLocation clk geocodeName location current.2.2
    (.ok named.1, current.2.1 ++ named.2.1, named.2.2)
  | .error e => (.error e, current.2.1, current.2.2)

/-! ## index.js: `fetchAndSendPrayerData` -/

/-- The settings object returned by `settings.loadSettings()`. -/
structure Settings where
  calculationMethod : String
  asrMethod : String
  manualLocation : Bool
  manualLatitude : ℚ
  manualLongitude : ℚ
  timelineEnabled : Bool
  reminderMinutes : Int
  vibrationEnabled : Bool
deriving DecidableEq, Repr

/-- The constant `DEFAULT_SETTINGS` of `settings.js`. -/
def DEFAULT_SETTINGS : Settings :=
  { calculationMethod := "mwl", asrMethod := "shafi", manualLocation := false,
    manualLatitude := 0, manualLongitude := 0, timelineEnabled := true,
    reminderMinutes := 10, vibrationEnabled := true }

/-- The success callback that `fetchAndSendPrayerData` gives to `getLocationWithName`,
closed over `cachedLoc`. -/
def onLocationSuccess (clk : CycleClock) (cachedLoc : Option Location)
    (loc : NamedLocation) (s : LocState) : List Effect × LocState :=
  let s1 := saveLocationCache clk.tSave loc.toLocation s
  let send : List Effect := [.processPrayerData loc.latitude loc.longitude loc.name]
  match cachedLoc with
  | some c =>
    let latDiff := |jsSub loc.latitude c.latitude|
    let lonDiff := |jsSub loc.longitude c.longitude|
    if latDiff < DOUBLE_0_01 ∧ lonDiff < DOUBLE_0_01 then ([.saveCache], s1)
    else (.saveCache :: send, s1)
  | none => (.saveCache :: send, s1)

/-- The error callback that `fetchAndSendPrayerData` gives to `getLocationWithName`,
closed over `cachedLoc`. -/
def onLocationError (cachedLoc : Option Location) : List Effect :=
  match cachedLoc with
  | some _ => []
  | none => [.sendError ERROR_LOCATION "Location unavailable"]

/-- Source function `fetchAndSendPrayerData()`, run to the end of its callbacks: `settings` is what
`settings.loadSettings()` returns; the trace of calls and the final state of the
location module. -/
def fetchAndSendPrayerData (settings : Settings) (clk : CycleClock) (gps : GpsOutcome)
    (geocodeName : String) (s : LocState) : List Effect × LocState :=
  if settings.manualLocation = true ∧ settings.manualLatitude ≠ 0 ∧
      settings.manualLongitude ≠ 0 then
    ([.processPrayerData settings.manualLatitude settings.manualLongitude "Manual Location"],
      s)
  else
    let cached := getCachedLocation clk.tFetch s
    let cachedLoc := cached.1
    let first : List Effect :=
      match cachedLoc with
      | some c =>
        [.processPrayerData c.latitude c.longitude ((truthyName c.name).getD "Cached Location")]
      | none => []
    let located := getLocationWithName clk gps geocodeName cached.2
    match located.1 with
    | .ok loc =>
      let done := onLocationSuccess clk cachedLoc loc located.2.2
      (.readCache :: first ++ .requestLocation :: located.2.1 ++ done.1, done.2)
    | .error _ =>
      (.readCache :: first ++ .requestLocation :: located.2.1 ++ onLocationError cachedLoc,
        located.2.2)

/-- The messages that reach the watch: the `processPrayerData` and `sendError` calls
of a trace. -/
def watchMessages (trace : List Effect) : List Effect :=
  trace.filter fun e =>
    match e with
    | .processPrayerData _ _ _ => true
    | .sendError _ _ => true
    | _ => false

/-! ## Sample inputs for evaluation -/

/-- A cached location named "Home" at (40, 30), saved at time 0. -/
def sampleHome : Location :=
  { latitude := 40, longitude := 30, name := some "Home", accuracy := none,
    timestamp := some 0, suggestedMethod := some "mwl" }

/-- A module state holding `sampleHome` in memory and in storage. -/
def sampleCachedState : LocState :=
  { cachedLocation := some sampleHome, cachedTimestamp := some 0,
    stored := .entry sampleHome }

/-- A cycle that runs a little over 16 minutes after time 0. -/
def sampleClock : CycleClock :=
  { tFetch := 1000000, tRequest := 1000001, tCallback := 1000002, tSave := 1000003 }

/-- Settings with the manual override enabled at latitude 51.5, longitude 0. -/
def sampleGreenwich : Settings :=
  { DEFAULT_SETTINGS with manualLocation := true, manualLatitude := 51.5, manualLongitude := 0 }

/-- Settings with the manual override enabled at latitude 21.4225, longitude 39.8262. -/
def sampleMakkah : Settings :=
  { DEFAULT_SETTINGS with
    manualLocation := true, manualLatitude := 21.4225, manualLongitude := 39.8262 }

/-- A cached location "Home" whose latitude is the double written `1e-05`. -/
def sampleNearOrigin : Location :=
  { latitude := toDouble (1 / 100000), longitude := 30, name := some "Home",
    accuracy := none, timestamp := some 0, suggestedMethod := some "mwl" }

/-- A module state holding `sampleNearOrigin` in memory and in storage. -/
def sampleNearOriginState : LocState :=
  { cachedLocation := some sampleNearOrigin, cachedTimestamp := some 0,
    stored := .entry sampleNearOrigin }

/-! ## Descriptions used to state the claims on formatting -/

/-- Two-digit rendering of a number below 100: zero-padded on the left. -/
def twoDigits (n : Nat) : String :=
  if n < 10 then "0" ++ toString n else toString n

/-- The 12-hour rendering of hour `h` and minute `m` as the specification words it:
the hour is 12 for `h` 0 and 12 and `h mod 12` otherwise, the minute has two digits,
the suffix is AM before noon and PM from noon on. -/
def formatTime12Spec (h m : Nat) : String :=
  toString (if h = 0 ∨ h = 12 then 12 else h % 12) ++ ":" ++ twoDigits m ++ " " ++
    (if h < 12 then "AM" else "PM")

/-! ## timeline.js -/

/-- The further operations of the JavaScript `Date` that `timeline.js` uses; the first
three read the local calendar of the phone, the last is the native
`Date.prototype.toISOString` (UTC, `YYYY-MM-DDTHH:mm:ss.sssZ`). -/
structure DateRuntime where
  /-- Source call `date.getFullYear()` -/
  getFullYear : Int → Int
  /-- Source call `date.getMonth()`, in 0..11 -/
  getMonth : Int → Nat
  /-- Source call `date.getDate()`, in 1..31 -/
  getDate : Int → Nat
  /-- Native call `date.toISOString()` -/
  nativeISOString : Int → String

/-- The civil date (year, month 1..12, day 1..31) of a day number counted from
1970-01-01, in the proleptic Gregorian calendar. -/
def civilFromDays (days : Int) : Int × Nat × Nat :=
  let z := days + 719468
  let era := Int.fdiv z 146097
  let doe := (z - era * 146097).toNat
  let yoe := (doe - doe / 1460 + doe / 36524 - doe / 146096) / 365
  let doy := doe - (365 * yoe + yoe / 4 - yoe / 100)
  let mp := (5 * doy + 2) / 153
  let d := doy - (153 * mp + 2) / 5 + 1
  let m := if mp < 10 then mp + 3 else mp - 9
  let y := (yoe : Int) + era * 400
  (if m ≤ 2 then y + 1 else y, m, d)

/-- Left-pad the decimal digits of `n` with zeros to at least `width` characters. -/
def zeroPad (width n : Nat) : String :=
  String.mk (List.replicate (width - (toString n).length) '0') ++ toString n

/-- The year part of the native ISO string: four digits for the years 0..9999, a sign
and six digits otherwise. -/
def isoYear (y : Int) : String :=
  if 0 ≤ y ∧ y ≤ 9999 then zeroPad 4 y.toNat
  else if y < 0 then "-" ++ zeroPad 6 (-y).toNat
  else "+" ++ zeroPad 6 y.toNat

/-- The date runtime of a phone whose local time is UTC. -/
def utcRuntime : DateRuntime where
  getFullYear t := (civilFromDays (Int.fdiv t 86400000)).1
  getMonth t := (civilFromDays (Int.fdiv t 86400000)).2.1 - 1
  getDate t := (civilFromDays (Int.fdiv t 86400000)).2.2
  nativeISOString t :=
    let civil := civilFromDays (Int.fdiv t 86400000)
    let ms := (Int.fmod t 86400000).toNat
    isoYear civil.1 ++ "-" ++ zeroPad 2 civil.2.1 ++ "-" ++ zeroPad 2 civil.2.2 ++ "T" ++
      zeroPad 2 (ms / 3600000) ++ ":" ++ zeroPad 2 (ms / 60000 % 60) ++ ":" ++
      zeroPad 2 (ms / 1000 % 60) ++ "." ++ zeroPad 3 (ms % 1000) ++ "Z"

/-- The replacement `.replace(/\.\d{3}Z$/, 'Z')` of `toISOString`: a final `.dddZ`
becomes `Z`; any other string is left as it is. -/
def dropMilliseconds (s : String) : String :=
  match s.data.reverse with
  | 'Z' :: d3 :: d2 :: d1 :: '.' :: rest =>
    if d1.isDigit ∧ d2.isDigit ∧ d3.isDigit then String.mk (rest.reverse ++ ['Z']) else s
  | _ => s

/-- Source function `toISOString(date)` of `timeline.js`. -/
def toISOString (rt : DateRuntime) (date : Int) : String :=
  dropMilliseconds (rt.nativeISOString date)

/-- The constant `PIN_PREFIX`. -/
def PIN_PREFIX : String := "prayer-keeper-"

/-- The table `PRAYER_ICONS`: prayer key to icon, `none` for any other key. -/
def PRAYER_ICONS (key : String) : Option String :=
  if key = "fajr" ∨ key = "dhuhr" ∨ key = "asr" ∨ key = "maghrib" ∨ key = "isha" then
    some "system://images/TIMELINE_SUN"
  else none

/-- Source function `formatDateForId(date)`. -/
def formatDateForId (rt : DateRuntime) (date : Int) : String :=
  let year := rt.getFullYear date
  let month := toString (rt.getMonth date + 1)
  let month := if month.length = 1 then "0" ++ month else month
  let day := toString (rt.getDate date)
  let day := if day.length = 1 then "0" ++ day else day
  toString year ++ "-" ++ month ++ "-" ++ day

/-- The `layout` object of a pin. -/
structure PinLayout where
  type : String
  title : String
  subtitle : String
  tinyIcon : String
deriving DecidableEq, Repr

/-- The `layout` object of a reminder. -/
structure ReminderLayout where
  type : String
  title : String
  tinyIcon : String
deriving DecidableEq, Repr

/-- One element of the `reminders` array of a pin. -/
structure Reminder where
  time : String
  layout : ReminderLayout
deriving DecidableEq, Repr

/-- The pin object built by `createPrayerPin`; `reminders := none` is the property
being absent. -/
structure Pin where
  id : String
  time : String
  duration : Nat
  layout : PinLayout
  reminders : Option (List Reminder)
deriving DecidableEq, Repr

/-- Source function `createPrayerPin(prayerName, prayerTime, displayName, formattedTime,
reminderMinutes)`. -/
def createPrayerPin (rt : DateRuntime) (prayerName : String) (prayerTime : Int)
    (displayName formattedTime : String) (reminderMinutes : Int) : Pin :=
  let dateStr := formatDateForId rt prayerTime
  let pinId := PIN_PREFIX ++ prayerName ++ "-" ++ dateStr
  let tinyIcon := (PRAYER_ICONS prayerName).getD "system://images/GENERIC_CONFIRMATION"
  let pin : Pin :=
    { id := pinId
      time := toISOString rt prayerTime
      duration := 30
      layout :=
        { type := "genericPin", title := displayName ++ " Prayer", subtitle := formattedTime,
          tinyIcon := tinyIcon }
      reminders := none }
  if reminderMinutes > 0 then
    let reminderTime := prayerTime - reminderMinutes * 60000
    { pin with
      reminders := some [
        { time := toISOString rt reminderTime
          layout :=
            { type := "genericReminder",
              title := displayName ++ " in " ++ toString reminderMinutes ++ " min",
              tinyIcon := tinyIcon } }] }
  else pin

/-- Source function `formatTimeForPin(date, use24Hour)`. -/
def formatTimeForPin (cal : LocalCalendar) (date : Int) (use24Hour : Bool) : String :=
  let hours := cal.getHours date
  let minutes := cal.getMinutes date
  let minStr := if minutes < 10 then "0" ++ toString minutes else "" ++ toString minutes
  if use24Hour then
    let hourStr := if hours < 10 then "0" ++ toString hours else "" ++ toString hours
    hourStr ++ ":" ++ minStr
  else
    let ampm := if hours ≥ 12 then "PM" else "AM"
    let hours := hours % 12
    let hours := if hours = 0 then 12 else hours
    toString hours ++ ":" ++ minStr ++ " " ++ ampm

/-- The `options` argument of `createDayPins`; `none` is a property that is absent. -/
structure DayOptions where
  reminderMinutes : Option Int
  use24Hour : Option Bool
deriving DecidableEq, Repr

/-- The value of a number under `||`: `undefined` and 0 are falsy. -/
def truthyNumber : Option Int → Option Int
  | some n => if n = 0 then none else some n
  | none => none

/-- One element `{ key, name, time }` of the array `prayers` of `createDayPins`. -/
structure DayPrayer where
  key : String
  name : String
  time : Int
deriving DecidableEq, Repr

/-- The array literal `prayers` of `createDayPins`, in source order. -/
def dayPrayers (prayerTimes : PrayerTimes) : List DayPrayer :=
  [ { key := "fajr", name := "Fajr", time := prayerTimes.fajr },
    { key := "dhuhr", name := "Dhuhr", time := prayerTimes.dhuhr },
    { key := "asr", name := "Asr", time := prayerTimes.asr },
    { key := "maghrib", name := "Maghrib", time := prayerTimes.maghrib },
    { key := "isha", name := "Isha", time := prayerTimes.isha } ]

/-- What `createDayPins` has done when it returns: the pins handed to `insertPin`, in
order, and how many times it has already invoked the completion callback. -/
structure DayPinsStarted where
  issued : List Pin
  callbacks : Nat
deriving DecidableEq, Repr

/-- Source function `createDayPins(prayerTimes, options, callback)`, up to its return;
`stored` is what `settings.loadSettings()` returns, `hasCallback` tells whether a
callback was passed. -/
def createDayPins (cal : LocalCalendar) (rt : DateRuntime) (stored : Settings)
    (prayerTimes : PrayerTimes) (options : Option DayOptions) (hasCallback : Bool) :
    DayPinsStarted :=
  if ¬ stored.timelineEnabled = true then
    { issued := [], callbacks := if hasCallback then 1 else 0 }
  else
    let options := options.getD { reminderMinutes := none, use24Hour := none }
    let reminderMinutes :=
      (truthyNumber options.reminderMinutes).getD
        ((truthyNumber (some stored.reminderMinutes)).getD 10)
    let use24Hour := options.use24Hour.getD false
    { issued :=
        (dayPrayers prayerTimes).map fun prayer =>
          createPrayerPin rt prayer.key prayer.time prayer.name
            (formatTimeForPin cal prayer.time use24Hour) reminderMinutes
      callbacks := 0 }

/-- How the HTTP request of `insertPin` ends. -/
inductive HttpOutcome where
  /-- The handler `onload` runs, with this status -/
  | load (status : Nat)
  /-- The handler `onerror` runs -/
  | networkError
deriving DecidableEq, Repr

/-- The boolean that `insertPin` passes to its callback. -/
def insertPinResult : HttpOutcome → Bool
  | .load status => status = 200
  | .networkError => false

/-- The callback that `createDayPins` gives to `insertPin`, from the current value of
`completed`: its new value and the number of times the completion callback is
invoked (0 or 1). The argument `success` is not looked at. -/
def onPinInserted (total : Nat) (hasCallback : Bool) (completed : Nat) (_success : Bool) :
    Nat × Nat :=
  let completed := completed + 1
  (completed, if completed = total ∧ hasCallback = true then 1 else 0)

/-- The counter `completed` and the number of invocations of the completion callback
after the given requests have ended, in the order they ended; each entry names the
pin by its position among the issued pins. -/
def runCompletions (total : Nat) (hasCallback : Bool) :
    Nat → List (Nat × HttpOutcome) → Nat × Nat
  | completed, [] => (completed, 0)
  | completed, e :: rest =>
    let step := onPinInserted total hasCallback completed (insertPinResult e.2)
    let tail := runCompletions total hasCallback step.1 rest
    (tail.1, step.2 + tail.2)

/-- A sample day: the instants of `sampleAdhan` on 2024-03-15 (UTC). -/
def sampleDay : PrayerTimes :=
  { fajr := 1710478800000, sunrise := 1710484200000, dhuhr := 1710504000000,
    asr := 1710516600000, maghrib := 1710525600000, isha := 1710531000000 }

/-! ## index.js: `processPrayerData` -/

/-- The external calculator when it may throw: `none` is an exception raised by
`new adhan.PrayerTimes(...)`. -/
abbrev ThrowingAdhan := CalculationMethod → Madhab → ℚ → ℚ → Int → Option PrayerTimes

/-- A calculator that never throws, seen as one that may. -/
def Adhan.toThrowing (adhan : Adhan) : ThrowingAdhan :=
  fun params madhab latitude longitude date => some (adhan params madhab latitude longitude date)

/-- Source function `calculatePrayerTimes`, over a calculator that may throw; the
exception propagates. -/
def tryCalculatePrayerTimes (adhan : ThrowingAdhan) (latitude longitude : ℚ) (date : Int)
    (method asrMethod : Option String) : Option PrayerTimes :=
  let method := match method with
    | some m => if m = "" then "mwl" else m
    | none => "mwl"
  let asrMethod := match asrMethod with
    | some m => if m = "" then "shafi" else m
    | none => "shafi"
  let params := (CALCULATION_METHODS method).getD .MuslimWorldLeague
  let madhab := (ASR_METHODS asrMethod).getD .Shafi
  adhan params madhab latitude longitude date

/-- Source function `getPrayerData`, over a calculator that may throw: `none` when
either computation throws (or when `formatTime` would be called on `null`). -/
def tryGetPrayerData (adhan : ThrowingAdhan) (cal : LocalCalendar) (latitude longitude : ℚ)
    (method asrMethod : Option String) (use24Hour : Bool) (now : Int) : Option PrayerData :=
  match tryCalculatePrayerTimes adhan latitude longitude now method asrMethod with
  | none => none
  | some today =>
    let nextPrayer := getNextPrayer today now
    let resolved : Option NextPrayer :=
      if nextPrayer.isTomorrow then
        let tomorrow := cal.nextDay now
        match tryCalculatePrayerTimes adhan latitude longitude tomorrow method asrMethod with
        | none => none
        | some tomorrowTimes =>
          let countdownSeconds := Int.fdiv (tomorrowTimes.fajr - now) 1000
          some { name := "Fajr", time := some tomorrowTimes.fajr,
                 countdownSeconds := countdownSeconds, isTomorrow := false }
      else some nextPrayer
    match resolved with
    | none => none
    | some nextPrayer =>
      match nextPrayer.time with
      | none => none
      | some time =>
        some {
          times := {
            fajr := dateToMinutes cal today.fajr
            sunrise := dateToMinutes cal today.sunrise
            dhuhr := dateToMinutes cal today.dhuhr
            asr := dateToMinutes cal today.asr
            maghrib := dateToMinutes cal today.maghrib
            isha := dateToMinutes cal today.isha }
          nextPrayer := {
            name := nextPrayer.name
            timeFormatted := formatTime cal time use24Hour
            countdownSeconds := nextPrayer.countdownSeconds }
          rawTimes := today }

/-- The constant `ERROR.NONE`. -/
def ERROR_NONE : Nat := 0

/-- A dictionary handed to `Pebble.sendAppMessage`: the prayer-data payload of
`sendPrayerDataToWatch` or the error pair of `sendError`. -/
inductive WatchMessage where
  | prayerData (times : MinuteTimes) (nextPrayer : NextPrayerInfo) (locationName : String)
      (errorCode : Nat)
  | error (code : Nat) (message : String)
deriving DecidableEq, Repr

/-- The dictionary built by `sendPrayerDataToWatch(data, locationName)`. -/
def sendPrayerDataToWatch (data : PrayerData) (locationName : String) : WatchMessage :=
  .prayerData data.times data.nextPrayer
    (if locationName = "" then "Unknown" else locationName) ERROR_NONE

/-- The dictionary built by `sendError(code, message)`. -/
def sendError (code : Nat) (message : String) : WatchMessage :=
  .error code (if message = "" then "Unknown error" else message)

/-- The two callbacks given to `Pebble.sendAppMessage` in `sendError`: both only log. -/
def sendErrorCallback (retryCount : Nat) (_outcome : Outcome) : Nat × List RetryAction :=
  (retryCount, [])

/-- What the outcome of sending a message does to `retryCount`, by kind of message. -/
def messageCallback (message : WatchMessage) (retryCount : Nat) (outcome : Outcome) :
    Nat × List RetryAction :=
  match message with
  | .prayerData _ _ _ _ => deliveryCallback retryCount outcome
  | .error _ _ => sendErrorCallback retryCount outcome

/-- The calls made by `processPrayerData`, in order. -/
inductive ProcessEvent where
  /-- A call of `Pebble.sendAppMessage` with this dictionary -/
  | message (m : WatchMessage)
  /-- The call `timeline.refreshPins(today, tomorrow, { reminderMinutes }, ...)`
  returning normally -/
  | refreshPins (today tomorrow : PrayerTimes) (reminderMinutes : Int)
deriving DecidableEq, Repr

/-- Source function `processPrayerData(latitude, longitude, locationName,
currentSettings)`: `now` and `later` are the two values of `new Date()` (in
`getPrayerData` and for `tomorrowDate`), `refreshThrows` tells whether the call
`timeline.refreshPins` raises an exception. -/
def processPrayerData (adhan : ThrowingAdhan) (cal : LocalCalendar) (now later : Int)
    (refreshThrows : Bool) (latitude longitude : ℚ) (locationName : String)
    (currentSettings : Settings) : List ProcessEvent :=
  let caught : List ProcessEvent := [.message (sendError ERROR_CALCULATION "Calculation failed")]
  match tryGetPrayerData adhan cal latitude longitude
      (some currentSettings.calculationMethod) (some currentSettings.asrMethod) false now with
  | none => caught
  | some data =>
    let sent : List ProcessEvent := [.message (sendPrayerDataToWatch data locationName)]
    if currentSettings.timelineEnabled = true then
      let tomorrowDate := cal.nextDay later
      match tryCalculatePrayerTimes adhan latitude longitude tomorrowDate
          (some currentSettings.calculationMethod) (some currentSettings.asrMethod) with
      | none => sent ++ caught
      | some tomorrowData =>
        if refreshThrows = true then sent ++ caught
        else sent ++ [.refreshPins data.rawTimes tomorrowData currentSettings.reminderMinutes]
    else sent

/-- The dictionaries sent to the watch among the calls of `processPrayerData`. -/
def sentMessages (events : List ProcessEvent) : List WatchMessage :=
  events.filterMap fun e =>
    match e with
    | .message m => some m
    | .refreshPins _ _ _ => none

/-- A sample calculator that throws for every date from `limit` on and otherwise
answers as `sampleAdhan`. -/
def sampleAdhanUntil (limit : Int) : ThrowingAdhan :=
  fun params madhab latitude longitude date =>
    if date < limit then some (sampleAdhan params madhab latitude longitude date) else none

/-- The six minute-of-day values that `getPrayerData` puts in `times`. -/
def minuteTimes (cal : LocalCalendar) (today : PrayerTimes) : MinuteTimes :=
  { fajr := dateToMinutes cal today.fajr
    sunrise := dateToMinutes cal today.sunrise
    dhuhr := dateToMinutes cal today.dhuhr
    asr := dateToMinutes cal today.asr
    maghrib := dateToMinutes cal today.maghrib
    isha := dateToMinutes cal today.isha }

/-- The prayer-data payload with error code 0 for the day `today`, the next prayer
`name` at the instant `time`, counted down from `now`, and the location name. -/
def payloadFor (cal : LocalCalendar) (today : PrayerTimes) (name : String) (time now : Int)
    (locationName : String) : WatchMessage :=
  .prayerData (minuteTimes cal today)
    { name := name, timeFormatted := formatTime cal time false,
      countdownSeconds := Int.fdiv (time - now) 1000 }
    (if locationName = "" then "Unknown" else locationName) 0

/-- Whether the timeline step of `processPrayerData` ends without an exception: the
timeline is disabled, or the computation for tomorrow succeeds and `refreshPins`
does not throw. -/
def timelineStepSucceeds (adhan : ThrowingAdhan) (cal : LocalCalendar) (later : Int)
    (refreshThrows : Bool) (latitude longitude : ℚ) (currentSettings : Settings) : Prop :=
  currentSettings.timelineEnabled = true →
    (tryCalculatePrayerTimes adhan latitude longitude (cal.nextDay later)
        (some currentSettings.calculationMethod) (some currentSettings.asrMethod)).isSome = true ∧
      refreshThrows = false

/-! ## settings.js: the configuration URL -/

/-- A primitive JavaScript value held by a property of a settings object. -/
inductive Scalar where
  | bool (b : Bool)
  | num (value : ℚ)
  /-- The number `NaN` -/
  | nan
  | str (s : String)
deriving DecidableEq, Repr

/-- A plain object with primitive values: its own properties, each key once, listed in
the order in which they were first assigned. The list stands for the mapping from
keys to values; the order in which JavaScript enumerates integer-like keys is not
modelled. -/
abbrev JsObject := List (String × Scalar)

/-- A value returned by `JSON.parse`: a plain object with primitive values, or any
other JSON value, kept as its text. -/
inductive JsValue where
  | object (fields : JsObject)
  | other (text : String)
deriving DecidableEq, Repr

/-- The built-in functions of the JavaScript platform used by `settings.js`, taken as
given; `none` stands for an exception (`URIError`, `SyntaxError`). -/
structure Builtins where
  encodeURIComponent : String → String
  decodeURIComponent : String → Option String
  /-- Built-in `JSON.stringify` on a plain object -/
  jsonStringify : JsObject → String
  /-- Built-in `JSON.parse` -/
  jsonParse : String → Option JsValue
  /-- Built-in `isNaN` applied to a string -/
  isNaN : String → Bool
  /-- Built-in `parseFloat` -/
  parseFloat : String → Scalar

/-- The settings object as a plain object, keys in the order of `DEFAULT_SETTINGS`. -/
def Settings.toObject (s : Settings) : JsObject :=
  [ ("calculationMethod", .str s.calculationMethod),
    ("asrMethod", .str s.asrMethod),
    ("manualLocation", .bool s.manualLocation),
    ("manualLatitude", .num s.manualLatitude),
    ("manualLongitude", .num s.manualLongitude),
    ("timelineEnabled", .bool s.timelineEnabled),
    ("reminderMinutes", .num s.reminderMinutes),
    ("vibrationEnabled", .bool s.vibrationEnabled) ]

/-- The method `indexOf` for a one-character needle: the position of its first
occurrence, `none` for -1. -/
def indexOf (c : Char) : List Char → Option Nat
  | [] => none
  | x :: xs => if x = c then some 0 else (indexOf c xs).map (· + 1)

/-- The method `split` for a one-character separator. -/
def splitOn (sep : Char) : List Char → List (List Char)
  | [] => [[]]
  | x :: xs =>
    if x = sep then [] :: splitOn sep xs
    else
      match splitOn sep xs with
      | [] => [[x]]
      | piece :: pieces => (x :: piece) :: pieces

/-- The own property `key` of a plain object set to `value`: replaced where it is,
or added at the end. -/
def assignOwn (settings : JsObject) (key : String) (value : Scalar) : JsObject :=
  if settings.any (fun p => p.1 = key) then
    settings.map fun p => if p.1 = key then (key, value) else p
  else settings ++ [(key, value)]

/-- The assignment `settings[key] = value` of a primitive value on a plain object. For
the key `__proto__` the assignment reaches the accessor inherited from
`Object.prototype`, which ignores a primitive value: no own property is created. -/
def setProperty (settings : JsObject) (key : String) (value : Scalar) : JsObject :=
  if key = "__proto__" then settings else assignOwn settings key value

/-- The block "Convert types" of `parseConfigUrl`. -/
def convertValue (B : Builtins) (value : String) : Scalar :=
  if value = "true" then .bool true
  else if value = "false" then .bool false
  else if B.isNaN value = false ∧ value ≠ "" then B.parseFloat value
  else .str value

/-- The `for` loop of the fallback of `parseConfigUrl`, from the object built so far:
the object when the loop ends, or when `decodeURIComponent` throws and the outer
`catch` takes over. -/
def parsePairs (B : Builtins) : List (List Char) → JsObject → JsObject
  | [], settings => settings
  | piece :: rest, settings =>
    match splitOn '=' piece with
    | [k, v] =>
      match B.decodeURIComponent (String.mk k) with
      | none => settings
      | some key =>
        match B.decodeURIComponent (String.mk v) with
        | none => settings
        | some value => parsePairs B rest (setProperty settings key (convertValue B value))
    | _ => parsePairs B rest settings

/-- The text `configData` of `parseConfigUrl`: what follows the first `#`, or without
any `#` the first `?`; `none` when the URL has neither. -/
def configDataOf (configUrl : String) : Option String :=
  let hashIndex :=
    match indexOf '#' configUrl.data with
    | some i => some i
    | none => indexOf '?' configUrl.data
  match hashIndex with
  | none => none
  | some i => some (String.mk (configUrl.data.drop (i + 1)))

/-- Source function `parseConfigUrl(configUrl)`. -/
def parseConfigUrl (B : Builtins) (configUrl : String) : JsValue :=
  match configDataOf configUrl with
  | none => .object []
  | some configData =>
    let fallback : JsValue := .object (parsePairs B (splitOn '&' configData.data) [])
    match B.decodeURIComponent configData with
    | none => fallback
    | some decoded =>
      match B.jsonParse decoded with
      | none => fallback
      | some settings => settings

/-- Source function `getConfigPageUrl(baseUrl)`; `settings` is what `loadSettings()`
returns. -/
def getConfigPageUrl (B : Builtins) (settings : Settings) (baseUrl : String) : String :=
  let encoded := B.encodeURIComponent (B.jsonStringify settings.toObject)
  baseUrl ++ "#" ++ encoded

/-! ### The legacy format as the specification words it -/

/-- What one `&`-separated piece contributes, as the specification words it: a piece
with exactly one `=` maps its decoded key, unless that key is `__proto__`, to `true`
or `false` for the texts "true" and "false", to a number for non-empty numeric text,
and to the decoded string otherwise; any other piece contributes nothing. -/
def legacyPieceSpec (B : Builtins) (settings : JsObject) (piece : List Char) : JsObject :=
  match splitOn '=' piece with
  | [k, v] =>
    match B.decodeURIComponent (String.mk k), B.decodeURIComponent (String.mk v) with
    | some key, some value =>
      if key = "__proto__" then settings
      else
        assignOwn settings key
          (if value = "true" then .bool true
           else if value = "false" then .bool false
           else if value ≠ "" ∧ B.isNaN value = false then B.parseFloat value
           else .str value)
    | _, _ => settings
  | _ => settings

/-- The legacy key=value parse of a list of pieces, as the specification words it. -/
def legacyParseSpec (B : Builtins) (pieces : List (List Char)) : JsObject :=
  pieces.foldl (legacyPieceSpec B) []

/-- Whether a piece can be processed without `decodeURIComponent` throwing: it has
not exactly one `=`, or its key and its value are both decodable. -/
def pieceDecodable (B : Builtins) (piece : List Char) : Bool :=
  match splitOn '=' piece with
  | [k, v] =>
    (B.decodeURIComponent (String.mk k)).isSome && (B.decodeURIComponent (String.mk v)).isSome
  | _ => true

/-! ### A sample platform for evaluation -/

/-- The hexadecimal digit of a number below 16, upper case. -/
def hexDigit (n : Nat) : Char :=
  if n < 10 then Char.ofNat (48 + n) else Char.ofNat (55 + n)

/-- The value of a hexadecimal digit. -/
def hexValue (c : Char) : Option Nat :=
  if '0' ≤ c ∧ c ≤ '9' then some (c.toNat - 48)
  else if 'A' ≤ c ∧ c ≤ 'F' then some (c.toNat - 55)
  else if 'a' ≤ c ∧ c ≤ 'f' then some (c.toNat - 87)
  else none

/-- The UTF-8 bytes of a character. -/
def utf8Bytes (c : Char) : List Nat :=
  let n := c.toNat
  if n < 128 then [n]
  else if n < 2048 then [192 + n / 64, 128 + n % 64]
  else if n < 65536 then [224 + n / 4096, 128 + n / 64 % 64, 128 + n % 64]
  else [240 + n / 262144, 128 + n / 4096 % 64, 128 + n / 64 % 64, 128 + n % 64]

/-- The characters that `encodeURIComponent` leaves as they are. -/
def uriUnreserved (c : Char) : Bool :=
  c.isAlphanum || c = '-' || c = '_' || c = '.' || c = '!' || c = '~' || c = '*' ||
    c = Char.ofNat 39 || c = '(' || c = ')'

/-- A sample `encodeURIComponent`: percent-escapes of the UTF-8 bytes of every
character that is not unreserved. -/
def sampleEncode (s : String) : String :=
  String.mk (s.data.flatMap fun c =>
    if uriUnreserved c then [c]
    else (utf8Bytes c).flatMap fun b => ['%', hexDigit (b / 16), hexDigit (b % 16)])

/-- A sample `decodeURIComponent` on characters: escapes up to `%7F` are decoded, a
`%` not followed by two hexadecimal digits is an error, and so is, in this sample, an
escape above `%7F` (where the platform goes on to decode UTF-8). -/
def sampleDecodeChars : List Char → Option (List Char)
  | [] => some []
  | '%' :: h :: l :: rest =>
    match hexValue h, hexValue l with
    | some a, some b =>
      if 16 * a + b < 128 then (sampleDecodeChars rest).map (Char.ofNat (16 * a + b) :: ·)
      else none
    | _, _ => none
  | '%' :: _ => none
  | c :: rest => (sampleDecodeChars rest).map (c :: ·)

/-- The decimal digits of the fractional part `r / den`, at most `fuel` of them. -/
def fractionDigits (den : Nat) : Nat → Nat → List Char
  | 0, _ => []
  | fuel + 1, r =>
    if r = 0 then [] else Char.ofNat (48 + 10 * r / den) :: fractionDigits den fuel (10 * r % den)

/-- A sample number-to-text conversion: the integer as it is, a fraction with up to 17
decimals. -/
def sampleNumberText (q : ℚ) : String :=
  if q.den = 1 then toString q.num
  else
    let a := q.num.natAbs
    (if q.num < 0 then "-" else "") ++ toString (a / q.den) ++ "." ++
      String.mk (fractionDigits q.den 17 (a % q.den))

/-- A sample JSON text of a primitive value (strings without escapes). -/
def sampleScalarText : Scalar → String
  | .bool true => "true"
  | .bool false => "false"
  | .num q => sampleNumberText q
  | .nan => "null"
  | .str s => "\"" ++ s ++ "\""

/-- A sample `JSON.stringify` of a plain object. -/
def sampleStringify (o : JsObject) : String :=
  "\x7b" ++ ",".intercalate (o.map fun p => "\"" ++ p.1 ++ "\":" ++ sampleScalarText p.2) ++
    "\x7d"

/-- The value of a non-empty text of decimal digits. -/
def digitsValue (s : String) : Option Nat :=
  if s.data ≠ [] ∧ s.data.all Char.isDigit then
    some (s.data.foldl (fun acc c => 10 * acc + (c.toNat - 48)) 0)
  else none

/-- A sample platform: faithful percent-coding of ASCII text, a serialiser for plain
objects, a `JSON.parse` that accepts the serialisations of the objects in `known` and
rejects every other text, and numbers read from texts of decimal digits only. -/
def sampleBuiltins (known : List JsObject) : Builtins where
  encodeURIComponent := sampleEncode
  decodeURIComponent s := (sampleDecodeChars s.data).map String.mk
  jsonStringify := sampleStringify
  jsonParse text := (known.find? fun o => sampleStringify o = text).map .object
  isNaN s := s ≠ "" ∧ (digitsValue s).isNone
  parseFloat s :=
    match digitsValue s with
    | some n => .num n
    | none => .nan

/-! ## location.js: `formatLocationName` -/

/-- A JavaScript string: its UTF-16 code units, each below 65536. `length` is the
number of code units and `substring` cuts between code units. -/
abbrev JsString := List Nat

/-- The UTF-16 code units of a character: one unit, or a surrogate pair from U+10000
on. -/
def utf16Units (c : Char) : List Nat :=
  if c.toNat < 65536 then [c.toNat]
  else [55296 + (c.toNat - 65536) / 1024, 56320 + (c.toNat - 65536) % 1024]

/-- The JavaScript string of a text. -/
def jsString (s : String) : JsString :=
  s.data.flatMap utf16Units

/-- The `address` object of a Nominatim response, with the fields that
`formatLocationName` reads; `none` is a field that is absent. -/
structure Address where
  city : Option JsString
  town : Option JsString
  village : Option JsString
  municipality : Option JsString
  county : Option JsString
  country_code : Option JsString
deriving DecidableEq, Repr

/-- The parsed response of the reverse geocoder; `address := none` is the field being
absent (or falsy). -/
structure GeocodeResponse where
  address : Option Address
deriving DecidableEq, Repr

/-- The truthiness test on an optional string: present and not empty. -/
def truthyString : Option JsString → Option JsString
  | some s => if s = [] then none else some s
  | none => none

/-- The expression `a || b` for an optional string `a`: `a` when it is present and
not empty, else `b`. -/
def orString (a : Option JsString) (b : JsString) : JsString :=
  match truthyString a with
  | some s => s
  | none => b

/-- The variable `city` of `formatLocationName`: the first of `city`, `town`,
`village`, `municipality`, `county` that is present and not empty, else the empty
string. -/
def cityOf (addr : Address) : JsString :=
  orString addr.city (orString addr.town (orString addr.village
    (orString addr.municipality (orString addr.county []))))

/-- The variable `country` of `formatLocationName`; `toUpperCase` is the built-in
method of strings. -/
def countryOf (toUpperCase : JsString → JsString) (addr : Address) : JsString :=
  match truthyString addr.country_code with
  | some code => toUpperCase code
  | none => []

/-- The method `substring(0, n)`: the first `n` code units. -/
def substringTo (s : JsString) (n : Nat) : JsString :=
  s.take n

/-- Source function `formatLocationName(response)`; `response := none` is a falsy
response. -/
def formatLocationName (toUpperCase : JsString → JsString)
    (response : Option GeocodeResponse) : JsString :=
  match response with
  | none => jsString "Unknown"
  | some r =>
    match r.address with
    | none => jsString "Unknown"
    | some addr =>
      let city := cityOf addr
      let country := countryOf toUpperCase addr
      if city ≠ [] ∧ country ≠ [] then
        let name := city ++ jsString ", " ++ country
        if name.length > 28 then substringTo city 24 ++ jsString "..." else name
      else if city ≠ [] then city
      else if country ≠ [] then country
      else jsString "Unknown"

/-- A sample `toUpperCase`: the code units of `a` to `z` become those of `A` to `Z`. -/
def sampleToUpperCase (s : JsString) : JsString :=
  s.map fun u => if 97 ≤ u ∧ u ≤ 122 then u - 32 else u

/-- A sample address: London, United Kingdom. -/
def sampleLondon : Address :=
  { city := some (jsString "London"), town := none, village := none, municipality := none,
    county := some (jsString "Greater London"), country_code := some (jsString "gb") }

/-- A sample address with a long village name and no city or town. -/
def sampleLongVillage : Address :=
  { city := none, town := some [],
    village := some (jsString "Llanfairpwllgwyngyllgogerychwyrndrobwll"),
    municipality := none, county := none, country_code := some (jsString "gb") }

/-- A sample address whose city is 14 times the character U+20000, which takes two
code units each. -/
def sampleAstralCity : Address :=
  { city := some (jsString (String.mk (List.replicate 14 (Char.ofNat 131072)))),
    town := none, village := none, municipality := none, county := none,
    country_code := some (jsString "gb") }

/-! ## Lemmas on the scan -/

theorem getNextPrayerLoop_split (l : List PrayerEntry) (now : Int)
    (h : ∃ p ∈ l, now < p.time) :
    ∃ pre p post, l = pre ++ p :: post ∧ (∀ q ∈ pre, q.time ≤ now) ∧ now < p.time ∧
      getNextPrayerLoop l now = upcoming p now := by
  induction l with
  | nil => obtain ⟨p, hp, _⟩ := h; cases hp
  | cons a rest ih =>
    by_cases ha : a.time > now
    · exact ⟨[], a, rest, rfl, by simp, ha, by simp [getNextPrayerLoop, ha]⟩
    · have h2 : ∃ p ∈ rest, now < p.time := by
        obtain ⟨p, hp, hlt⟩ := h
        rcases List.mem_cons.mp hp with rfl | hp
        · exact absurd hlt ha
        · exact ⟨p, hp, hlt⟩
      obtain ⟨pre, p, post, hl, hpre, hp, hres⟩ := ih h2
      refine ⟨a :: pre, p, post, by simp [hl], ?_, hp, by simp [getNextPrayerLoop, ha, hres]⟩
      intro q hq
      rcases List.mem_cons.mp hq with rfl | hq
      · exact not_lt.mp ha
      · exact hpre q hq

theorem getNextPrayerLoop_sentinel_iff (l : List PrayerEntry) (now : Int) :
    getNextPrayerLoop l now = tomorrowSentinel ↔ ∀ p ∈ l, p.time ≤ now := by
  induction l with
  | nil => simp [getNextPrayerLoop]
  | cons a rest ih =>
    by_cases ha : a.time > now
    · simp only [getNextPrayerLoop, ha, if_true]
      constructor
      · intro h
        have := congrArg NextPrayer.isTomorrow h
        simp [upcoming, tomorrowSentinel] at this
      · intro h
        exact absurd ha (not_lt.mpr (h a (List.mem_cons_self _ _)))
    · simp only [getNextPrayerLoop, ha, if_false, ih]
      constructor
      · intro h p hp
        rcases List.mem_cons.mp hp with rfl | hp
        · exact not_lt.mp ha
        · exact h p hp
      · intro h p hp
        exact h p (List.mem_cons_of_mem _ hp)

theorem fdiv_thousand_nonneg (d : Int) (h : 0 < d) : 0 ≤ Int.fdiv d 1000 := by
  rw [Int.fdiv_eq_ediv d (by decide : (0 : Int) ≤ 1000)]
  exact Int.ediv_nonneg (le_of_lt h) (by decide)

/-! ## Claims on `getNextPrayer` -/

/-- C1: whenever some instant of the record is strictly after `now`, `getNextPrayer`
returns the first such entry of the canonical list Fajr, Sunrise, Dhuhr, Asr,
Maghrib, Isha (every earlier entry is at or before `now`, so an instant equal to
`now` is skipped and Sunrise is eligible), with that entry's name and instant and
`countdownSeconds = floor((instant - now) / 1000)`, which is non-negative; and when
`now` is before Fajr the result is Fajr with countdown `floor((fajr - now) / 1000)`. -/
theorem getNextPrayer_first_upcoming (pt : PrayerTimes) (now : Int) :
    ((∃ p ∈ prayers pt, now < p.time) →
      ∃ pre p post, prayers pt = pre ++ p :: post ∧ (∀ q ∈ pre, q.time ≤ now) ∧
        now < p.time ∧
        getNextPrayer pt now =
          { name := p.name, time := some p.time,
            countdownSeconds := Int.fdiv (p.time - now) 1000, isTomorrow := false } ∧
        0 ≤ (getNextPrayer pt now).countdownSeconds) ∧
    (now < pt.fajr →
      getNextPrayer pt now =
        { name := "Fajr", time := some pt.fajr,
          countdownSeconds := Int.fdiv (pt.fajr - now) 1000, isTomorrow := false }) := by
  constructor
  · intro h
    obtain ⟨pre, p, post, hl, hpre, hp, hres⟩ := getNextPrayerLoop_split (prayers pt) now h
    refine ⟨pre, p, post, hl, hpre, hp, hres, ?_⟩
    have hres2 : getNextPrayer pt now = upcoming p now := hres
    rw [hres2]
    exact fdiv_thousand_nonneg _ (by omega)
  · intro h
    simp [getNextPrayer, prayers, getNextPrayerLoop, upcoming, h]

/-- Witness for C1: Fajr and Sunrise have passed (Sunrise exactly at the current
instant), so Dhuhr is the first entry strictly later. -/
theorem getNextPrayer_first_upcoming_witness :
    (∃ p ∈ prayers ⟨1000, 5000, 9500, 12000, 15000, 18000⟩, (5000 : Int) < p.time) ∧
      ∃ pre p post,
        prayers ⟨1000, 5000, 9500, 12000, 15000, 18000⟩ = pre ++ p :: post ∧
        (∀ q ∈ pre, q.time ≤ 5000) ∧ 5000 < p.time ∧
        getNextPrayer ⟨1000, 5000, 9500, 12000, 15000, 18000⟩ 5000 =
          { name := p.name, time := some p.time,
            countdownSeconds := Int.fdiv (p.time - 5000) 1000, isTomorrow := false } ∧
        0 ≤ (getNextPrayer ⟨1000, 5000, 9500, 12000, 15000, 18000⟩ 5000).countdownSeconds :=
  ⟨⟨⟨"Dhuhr", 9500⟩, by decide, by decide⟩,
    (getNextPrayer_first_upcoming ⟨1000, 5000, 9500, 12000, 15000, 18000⟩ 5000).1
      ⟨⟨"Dhuhr", 9500⟩, by decide, by decide⟩⟩

/-- C2: for a record with strictly increasing instants and `now` after Isha,
`getNextPrayer` returns the roll-to-tomorrow sentinel (name "Fajr", no instant,
countdown -1, `isTomorrow` set); and it returns that sentinel exactly when none of
the six instants of the record (Fajr, Sunrise, Dhuhr, Asr, Maghrib, Isha) is strictly
after `now`. -/
theorem getNextPrayer_sentinel (pt : PrayerTimes) (now : Int) :
    (StrictlyIncreasing pt → pt.isha < now →
      getNextPrayer pt now =
        { name := "Fajr", time := none, countdownSeconds := -1, isTomorrow := true }) ∧
    (getNextPrayer pt now =
        { name := "Fajr", time := none, countdownSeconds := -1, isTomorrow := true } ↔
      (¬ now < pt.fajr ∧ ¬ now < pt.sunrise ∧ ¬ now < pt.dhuhr ∧ ¬ now < pt.asr ∧
        ¬ now < pt.maghrib ∧ ¬ now < pt.isha)) := by
  have hiff : getNextPrayer pt now = tomorrowSentinel ↔
      (¬ now < pt.fajr ∧ ¬ now < pt.sunrise ∧ ¬ now < pt.dhuhr ∧ ¬ now < pt.asr ∧
        ¬ now < pt.maghrib ∧ ¬ now < pt.isha) := by
    unfold getNextPrayer
    rw [getNextPrayerLoop_sentinel_iff]
    simp only [prayers, List.mem_cons, List.mem_singleton, List.not_mem_nil, or_false,
      forall_eq_or_imp, forall_eq, not_lt]
  refine ⟨?_, hiff⟩
  intro hinc hnow
  obtain ⟨h1, h2, h3, h4, h5⟩ := hinc
  apply hiff.mpr
  refine ⟨?_, ?_, ?_, ?_, ?_, ?_⟩ <;> omega

/-- Witness for C2: a strictly increasing day and an instant after its Isha. -/
theorem getNextPrayer_sentinel_witness :
    StrictlyIncreasing ⟨1000, 5000, 9500, 12000, 15000, 18000⟩ ∧
      (18000 : Int) < 18001 ∧
      getNextPrayer ⟨1000, 5000, 9500, 12000, 15000, 18000⟩ 18001 =
        { name := "Fajr", time := none, countdownSeconds := -1, isTomorrow := true } ∧
      ¬ (18001 : Int) < (⟨1000, 5000, 9500, 12000, 15000, 18000⟩ : PrayerTimes).sunrise :=
  ⟨by decide, by decide,
    (getNextPrayer_sentinel ⟨1000, 5000, 9500, 12000, 15000, 18000⟩ 18001).1
      (by decide) (by decide),
    (((getNextPrayer_sentinel ⟨1000, 5000, 9500, 12000, 15000, 18000⟩ 18001).2).mp
      (by decide)).2.1⟩

/-! ## Claims on `getPrayerData` -/

/-- C3: when none of today's six instants is strictly after `now`, `getPrayerData`
returns a result whose `nextPrayer` is not the sentinel: its name is "Fajr", its
formatted time is that of the Fajr computed for the calendar day after `now`, and
its `countdownSeconds` is `floor((tomorrowFajr - now) / 1000)`, a difference taken
against `now` itself. -/
theorem getPrayerData_rolls_to_tomorrow (adhan : Adhan) (cal : LocalCalendar)
    (latitude longitude : ℚ) (method asrMethod : Option String) (use24Hour : Bool)
    (now : Int)
    (h : ∀ p ∈ prayers (calculatePrayerTimes adhan latitude longitude now method asrMethod),
      ¬ now < p.time) :
    ∃ d, getPrayerData adhan cal latitude longitude method asrMethod use24Hour now = some d ∧
      d.nextPrayer =
        { name := "Fajr",
          timeFormatted :=
            formatTime cal
              (calculatePrayerTimes adhan latitude longitude (cal.nextDay now)
                method asrMethod).fajr use24Hour,
          countdownSeconds :=
            Int.fdiv
              ((calculatePrayerTimes adhan latitude longitude (cal.nextDay now)
                method asrMethod).fajr - now) 1000 } := by
  have hs : getNextPrayer (calculatePrayerTimes adhan latitude longitude now method asrMethod)
      now = tomorrowSentinel :=
    (getNextPrayerLoop_sentinel_iff _ now).mpr (fun p hp => not_lt.mp (h p hp))
  simp [getPrayerData, hs, resolveTomorrow, tomorrowSentinel]

/-- Witness for C3: at 22:13 UTC every instant of the sample day has passed; the
delivered next prayer is the next day's Fajr, 05:00, 24400 seconds away. -/
theorem getPrayerData_rolls_to_tomorrow_witness :
    (∀ p ∈ prayers (calculatePrayerTimes sampleAdhan 0 0 80000000 none none),
        ¬ (80000000 : Int) < p.time) ∧
      ∃ d, getPrayerData sampleAdhan utcCalendar 0 0 none none false 80000000 = some d ∧
        d.nextPrayer =
          { name := "Fajr",
            timeFormatted :=
              formatTime utcCalendar
                (calculatePrayerTimes sampleAdhan 0 0 (utcCalendar.nextDay 80000000)
                  none none).fajr false,
            countdownSeconds :=
              Int.fdiv
                ((calculatePrayerTimes sampleAdhan 0 0 (utcCalendar.nextDay 80000000)
                  none none).fajr - 80000000) 1000 } :=
  ⟨by decide,
    getPrayerData_rolls_to_tomorrow sampleAdhan utcCalendar 0 0 none none false 80000000
      (by decide)⟩

/-! ## Claims on the retry counter -/

theorem retryWithBackoff_le (retryCount : Nat) :
    (retryWithBackoff retryCount).1 ≤ MAX_RETRIES := by
  unfold retryWithBackoff
  split
  · simp only; omega
  · simp

theorem deliveryCallback_le (retryCount : Nat) (o : Outcome) :
    (deliveryCallback retryCount o).1 ≤ MAX_RETRIES := by
  cases o
  · simp [deliveryCallback]
  · exact retryWithBackoff_le retryCount

theorem runOutcomes_le (outcomes : List Outcome) (retryCount : Nat)
    (h : retryCount ≤ MAX_RETRIES) : (runOutcomes retryCount outcomes).1 ≤ MAX_RETRIES := by
  induction outcomes generalizing retryCount with
  | nil => simpa [runOutcomes] using h
  | cons o rest ih =>
    simp only [runOutcomes]
    exact ih _ (deliveryCallback_le retryCount o)

theorem runOutcomes_append_one (outcomes : List Outcome) (o : Outcome) (retryCount : Nat) :
    runOutcomes retryCount (outcomes ++ [o]) =
      ((deliveryCallback (runOutcomes retryCount outcomes).1 o).1,
        (runOutcomes retryCount outcomes).2 ++
          (deliveryCallback (runOutcomes retryCount outcomes).1 o).2) := by
  induction outcomes generalizing retryCount with
  | nil => simp [runOutcomes]
  | cons a rest ih => simp [runOutcomes, ih]

/-- C4: from retry count 0, three consecutive transport failures schedule redeliveries
after exactly 2000 ms, 4000 ms and 8000 ms, in that order, leaving the counter at 3;
the failure that follows schedules nothing and reports the Application error (code 4,
"Communication failed") instead; and at attempt number 1, 2 or 3 the delay is
`2000 * 2^(attempt - 1)`. -/
theorem retryWithBackoff_sequence :
    runOutcomes 0 [.failure, .failure, .failure] =
        (3, [.schedule 2000, .schedule 4000, .schedule 8000]) ∧
      runOutcomes 0 [.failure, .failure, .failure, .failure] =
        (0, [.schedule 2000, .schedule 4000, .schedule 8000,
             .sendError 4 "Communication failed"]) ∧
      (∀ attempt, 1 ≤ attempt → attempt ≤ 3 →
        retryWithBackoff (attempt - 1) = (attempt, .schedule (2000 * 2 ^ (attempt - 1)))) ∧
      retryWithBackoff 3 = (0, .sendError 4 "Communication failed") := by
  refine ⟨by decide, by decide, ?_, by decide⟩
  intro attempt h1 h3
  have : attempt = 1 ∨ attempt = 2 ∨ attempt = 3 := by omega
  rcases this with rfl | rfl | rfl <;> decide

/-- Witness for C4: the second attempt is scheduled after 4000 ms. -/
theorem retryWithBackoff_sequence_witness :
    1 ≤ 2 ∧ 2 ≤ 3 ∧ retryWithBackoff (2 - 1) = (2, .schedule (2000 * 2 ^ (2 - 1))) :=
  ⟨by decide, by decide, retryWithBackoff_sequence.2.2.1 2 (by decide) (by decide)⟩

/-- C5: over every sequence of delivery outcomes starting from retry count 0, the
counter stays within 0..3; it is 0 right after a successful delivery, whatever came
before; and when a failure exhausts the budget, so that the error is reported, the
counter is 0 right after and the error is the Application error (code 4). -/
theorem retryCount_invariant (outcomes : List Outcome) :
    (runOutcomes 0 outcomes).1 ≤ 3 ∧
      (runOutcomes 0 (outcomes ++ [.success])).1 = 0 ∧
      (∀ code message,
        (runOutcomes 0 (outcomes ++ [.failure])).2.getLast? =
            some (.sendError code message) →
          (runOutcomes 0 (outcomes ++ [.failure])).1 = 0 ∧
            (runOutcomes 0 outcomes).1 = 3 ∧ code = 4 ∧ message = "Communication failed") := by
  have hle : (runOutcomes 0 outcomes).1 ≤ 3 := runOutcomes_le outcomes 0 (by decide)
  refine ⟨hle, ?_, ?_⟩
  · rw [runOutcomes_append_one]; rfl
  · intro code message hlast
    rw [runOutcomes_append_one] at hlast ⊢
    generalize (runOutcomes 0 outcomes).1 = n at hle hlast ⊢
    have : n = 0 ∨ n = 1 ∨ n = 2 ∨ n = 3 := by omega
    rcases this with rfl | rfl | rfl | rfl <;>
      simp [deliveryCallback, retryWithBackoff, MAX_RETRIES, RETRY_DELAY,
        ERROR_APPMESSAGE] at hlast ⊢
    exact ⟨hlast.1.symm, hlast.2.symm⟩

/-- Witness for C5: after three failures the fourth reports the error and the counter
is back at 0. -/
theorem retryCount_invariant_witness :
    (runOutcomes 0 ([.failure, .failure, .failure] ++ [.failure])).2.getLast? =
        some (.sendError 4 "Communication failed") ∧
      (runOutcomes 0 ([.failure, .failure, .failure] ++ [.failure])).1 = 0 :=
  ⟨by decide,
    ((retryCount_invariant [.failure, .failure, .failure]).2.2 4 "Communication failed"
      (by decide)).1⟩

/-! ## Lemmas on the location module -/

theorem getCachedLocation_some_memory (now : Int) (s : LocState) (c : Location)
    (h : (getCachedLocation now s).1 = some c) :
    (getCachedLocation now s).2.cachedLocation = some c := by
  unfold getCachedLocation at h ⊢
  cases hm : s.cachedLocation with
  | some loc => simp only [hm] at h ⊢; simpa [hm] using h
  | none =>
    simp only [hm] at h ⊢
    cases hst : s.stored with
    | absent => simp [hst] at h
    | malformed => simp [hst] at h
    | entry data =>
      simp only [hst] at h ⊢
      split at h
      · rename_i hage; simp only [hage, if_true]; simpa using h
      · simp at h

theorem getCachedLocation_of_memory (now : Int) (s : LocState) (c : Location)
    (h : s.cachedLocation = some c) : getCachedLocation now s = (some c, s) := by
  simp [getCachedLocation, h]

theorem getCachedLocation_none (now : Int) (s : LocState)
    (h : (getCachedLocation now s).1 = none) :
    getCachedLocation now s = (none, s) ∧ s.cachedLocation = none ∧
      ∀ data, s.stored = .entry data → PERSISTED_CACHE_VALIDITY ≤ now - timestampOrZero data := by
  unfold getCachedLocation at h ⊢
  cases hm : s.cachedLocation with
  | some loc => simp [hm] at h
  | none =>
    simp only [hm] at h ⊢
    cases hst : s.stored with
    | absent => simp
    | malformed => simp
    | entry data =>
      simp only [hst] at h ⊢
      split at h
      · simp at h
      · rename_i hage
        simp only [hage, if_false, true_and]
        intro d hd
        cases hd
        exact not_lt.mp hage

theorem getCachedLocation_none_later (t t2 : Int) (s : LocState) (hle : t ≤ t2)
    (h : (getCachedLocation t s).1 = none) : getCachedLocation t2 s = (none, s) := by
  obtain ⟨_, hm, hst⟩ := getCachedLocation_none t s h
  unfold getCachedLocation
  simp only [hm]
  cases hs : s.stored with
  | absent => rfl
  | malformed => rfl
  | entry data =>
    have := hst data hs
    have hnot : ¬ (t2 - timestampOrZero data < PERSISTED_CACHE_VALIDITY) := by omega
    simp [hnot]

theorem watchMessages_append (a b : List Effect) :
    watchMessages (a ++ b) = watchMessages a ++ watchMessages b := by
  simp [watchMessages]

theorem watchMessages_readCache (l : List Effect) :
    watchMessages (.readCache :: l) = watchMessages l := rfl

theorem watchMessages_requestLocation (l : List Effect) :
    watchMessages (.requestLocation :: l) = watchMessages l := rfl

theorem getCurrentLocation_watchMessages (clk : CycleClock) (gps : GpsOutcome) (s : LocState) :
    watchMessages (getCurrentLocation clk gps s).2.1 = [] := by
  unfold getCurrentLocation
  simp only
  split
  · rfl
  · split
    · rfl
    · split
      · rfl
      · split <;> rfl

theorem nameLocation_watchMessages (clk : CycleClock) (geocodeName : String)
    (location : Location) (s : LocState) :
    watchMessages (nameLocation clk geocodeName location s).2.1 = [] := by
  unfold nameLocation
  simp only
  split
  · split
    · split <;> rfl
    · rfl
  · rfl

theorem nameLocation_coordinates (clk : CycleClock) (geocodeName : String)
    (location : Location) (s : LocState) :
    (nameLocation clk geocodeName location s).1.latitude = location.latitude ∧
      (nameLocation clk geocodeName location s).1.longitude = location.longitude := by
  unfold nameLocation
  simp only
  split
  · split
    · split <;> exact ⟨rfl, rfl⟩
    · exact ⟨rfl, rfl⟩
  · exact ⟨rfl, rfl⟩

theorem getLocationWithName_watchMessages (clk : CycleClock) (gps : GpsOutcome)
    (geocodeName : String) (s : LocState) :
    watchMessages (getLocationWithName clk gps geocodeName s).2.1 = [] := by
  have h1 := getCurrentLocation_watchMessages clk gps s
  unfold getLocationWithName
  simp only
  split
  · simp only [watchMessages_append]
    rw [h1, nameLocation_watchMessages]
    rfl
  · exact h1

theorem getCurrentLocation_fix (clk : CycleClock) (latitude longitude accuracy : ℚ)
    (s : LocState) :
    (getCurrentLocation clk (.fix latitude longitude accuracy) s).2.1 = [] ∨
      ∃ location,
        (getCurrentLocation clk (.fix latitude longitude accuracy) s).1 = .ok location ∧
        location.latitude = latitude ∧ location.longitude = longitude := by
  unfold getCurrentLocation
  simp only
  split
  · exact Or.inl rfl
  · exact Or.inr ⟨_, rfl, rfl, rfl⟩

theorem nameLocation_no_gpsRequest (clk : CycleClock) (geocodeName : String)
    (location : Location) (s : LocState) :
    Effect.gpsRequest ∉ (nameLocation clk geocodeName location s).2.1 := by
  unfold nameLocation
  simp only
  split
  · split
    · split <;> simp
    · simp
  · simp

theorem onLocationSuccess_no_gpsRequest (clk : CycleClock) (cachedLoc : Option Location)
    (loc : NamedLocation) (s : LocState) :
    Effect.gpsRequest ∉ (onLocationSuccess clk cachedLoc loc s).1 := by
  unfold onLocationSuccess
  simp only
  split
  · split <;> simp
  · simp

theorem onLocationSuccess_watchMessages (clk : CycleClock) (cachedLoc : Option Location)
    (loc : NamedLocation) (s : LocState) :
    watchMessages (onLocationSuccess clk cachedLoc loc s).1 =
      match cachedLoc with
      | some c =>
        if |jsSub loc.latitude c.latitude| ≥ DOUBLE_0_01 ∨ |jsSub loc.longitude c.longitude| ≥ DOUBLE_0_01 then
          [.processPrayerData loc.latitude loc.longitude loc.name]
        else []
      | none => [.processPrayerData loc.latitude loc.longitude loc.name] := by
  unfold onLocationSuccess
  cases cachedLoc with
  | none => rfl
  | some c =>
    simp only
    by_cases hd : |jsSub loc.latitude c.latitude| < DOUBLE_0_01 ∧ |jsSub loc.longitude c.longitude| < DOUBLE_0_01
    · have hn : ¬ (|jsSub loc.latitude c.latitude| ≥ DOUBLE_0_01 ∨
          |jsSub loc.longitude c.longitude| ≥ DOUBLE_0_01) := by
        rintro (h | h)
        · exact absurd hd.1 (not_lt.mpr h)
        · exact absurd hd.2 (not_lt.mpr h)
      rw [if_pos hd, if_neg hn]
      rfl
    · have hn : |jsSub loc.latitude c.latitude| ≥ DOUBLE_0_01 ∨
          |jsSub loc.longitude c.longitude| ≥ DOUBLE_0_01 := by
        by_contra hno
        push_neg at hno
        exact hd ⟨hno.1, hno.2⟩
      rw [if_neg hd, if_pos hn]
      rfl

theorem fetch_watchMessages_ok (settings : Settings) (clk : CycleClock)
    (gps : GpsOutcome) (geocodeName : String) (s : LocState) (loc : NamedLocation)
    (hauto : ¬ (settings.manualLocation = true ∧ settings.manualLatitude ≠ 0 ∧
      settings.manualLongitude ≠ 0))
    (hloc : (getLocationWithName clk gps geocodeName (getCachedLocation clk.tFetch s).2).1 =
      .ok loc) :
    watchMessages (fetchAndSendPrayerData settings clk gps geocodeName s).1 =
      (match (getCachedLocation clk.tFetch s).1 with
        | some c =>
          [.processPrayerData c.latitude c.longitude
            ((truthyName c.name).getD "Cached Location")]
        | none => []) ++
      watchMessages (onLocationSuccess clk (getCachedLocation clk.tFetch s).1 loc
        (getLocationWithName clk gps geocodeName (getCachedLocation clk.tFetch s).2).2.2).1 := by
  have hw := getLocationWithName_watchMessages clk gps geocodeName
    (getCachedLocation clk.tFetch s).2
  unfold fetchAndSendPrayerData
  rw [if_neg hauto]
  simp only [hloc]
  simp only [watchMessages_append, watchMessages_readCache, watchMessages_requestLocation,
    hw, List.append_nil]
  cases (getCachedLocation clk.tFetch s).1 <;> rfl

theorem fetch_watchMessages_error (settings : Settings) (clk : CycleClock)
    (gps : GpsOutcome) (geocodeName : String) (s : LocState) (e : LocationError)
    (hauto : ¬ (settings.manualLocation = true ∧ settings.manualLatitude ≠ 0 ∧
      settings.manualLongitude ≠ 0))
    (hloc : (getLocationWithName clk gps geocodeName (getCachedLocation clk.tFetch s).2).1 =
      .error e) :
    watchMessages (fetchAndSendPrayerData settings clk gps geocodeName s).1 =
      (match (getCachedLocation clk.tFetch s).1 with
        | some c =>
          [.processPrayerData c.latitude c.longitude
            ((truthyName c.name).getD "Cached Location")]
        | none => []) ++
      onLocationError (getCachedLocation clk.tFetch s).1 := by
  have hw := getLocationWithName_watchMessages clk gps geocodeName
    (getCachedLocation clk.tFetch s).2
  unfold fetchAndSendPrayerData
  rw [if_neg hauto]
  simp only [hloc]
  simp only [watchMessages_append, watchMessages_readCache, watchMessages_requestLocation,
    hw, List.append_nil]
  cases (getCachedLocation clk.tFetch s).1 <;> rfl

theorem getLocationWithName_gpsRequest (clk : CycleClock) (gps : GpsOutcome)
    (geocodeName : String) (s : LocState)
    (h : Effect.gpsRequest ∈ (getLocationWithName clk gps geocodeName s).2.1) :
    Effect.gpsRequest ∈ (getCurrentLocation clk gps s).2.1 := by
  unfold getLocationWithName at h
  simp only at h
  split at h
  · rcases List.mem_append.mp h with h | h
    · exact h
    · exact absurd h (nameLocation_no_gpsRequest clk geocodeName _ _)
  · exact h

theorem fetch_gpsRequest (settings : Settings) (clk : CycleClock) (gps : GpsOutcome)
    (geocodeName : String) (s : LocState)
    (hauto : ¬ (settings.manualLocation = true ∧ settings.manualLatitude ≠ 0 ∧
      settings.manualLongitude ≠ 0))
    (h : Effect.gpsRequest ∈ (fetchAndSendPrayerData settings clk gps geocodeName s).1) :
    Effect.gpsRequest ∈
      (getLocationWithName clk gps geocodeName (getCachedLocation clk.tFetch s).2).2.1 := by
  unfold fetchAndSendPrayerData at h
  rw [if_neg hauto] at h
  simp only at h
  split at h
  · simp only [List.mem_append, List.mem_cons] at h
    rcases h with ((h | h) | h | h) | h
    · cases h
    · cases hc : (getCachedLocation clk.tFetch s).1 <;> simp [hc] at h
    · cases h
    · exact h
    · exact absurd h (onLocationSuccess_no_gpsRequest clk _ _ _)
  · simp only [List.mem_append, List.mem_cons] at h
    rcases h with ((h | h) | h | h) | h
    · cases h
    · cases hc : (getCachedLocation clk.tFetch s).1 <;> simp [hc] at h
    · cases h
    · exact h
    · cases hc : (getCachedLocation clk.tFetch s).1 <;> simp [hc, onLocationError] at h

/-! ## Claims on `fetchAndSendPrayerData` -/

/-- C6, amended: without a usable manual location, when the location module delivers a
fix `loc`: if a cached location `c` was delivered first, the messages to the watch are
that first delivery followed by a second `processPrayerData` for `loc` exactly when
the difference computed in double arithmetic is at least the double 0.01 on some
axis, `|loc.latitude ⊖ c.latitude| ≥ 0.01` or `|loc.longitude ⊖ c.longitude| ≥ 0.01`,
and the first delivery alone when both computed differences are below it; if no
cached location was delivered, there is exactly one delivery, for `loc`. When the GPS
is asked and answers with a fix, `loc` carries the coordinates of that fix. -/
theorem fetchAndSendPrayerData_delta_suppression (settings : Settings) (clk : CycleClock)
    (gps : GpsOutcome) (geocodeName : String) (s : LocState)
    (hauto : ¬ (settings.manualLocation = true ∧ settings.manualLatitude ≠ 0 ∧
      settings.manualLongitude ≠ 0)) :
    (∀ loc,
      (getLocationWithName clk gps geocodeName (getCachedLocation clk.tFetch s).2).1 =
          .ok loc →
        watchMessages (fetchAndSendPrayerData settings clk gps geocodeName s).1 =
          match (getCachedLocation clk.tFetch s).1 with
          | some c =>
            if |jsSub loc.latitude c.latitude| ≥ DOUBLE_0_01 ∨ |jsSub loc.longitude c.longitude| ≥ DOUBLE_0_01 then
              [.processPrayerData c.latitude c.longitude
                  ((truthyName c.name).getD "Cached Location"),
               .processPrayerData loc.latitude loc.longitude loc.name]
            else
              [.processPrayerData c.latitude c.longitude
                  ((truthyName c.name).getD "Cached Location")]
          | none => [.processPrayerData loc.latitude loc.longitude loc.name]) ∧
    (∀ latitude longitude accuracy, gps = .fix latitude longitude accuracy →
      Effect.gpsRequest ∈ (fetchAndSendPrayerData settings clk gps geocodeName s).1 →
      ∃ loc,
        (getLocationWithName clk gps geocodeName (getCachedLocation clk.tFetch s).2).1 =
          .ok loc ∧
        loc.latitude = latitude ∧ loc.longitude = longitude) := by
  constructor
  · intro loc hloc
    rw [fetch_watchMessages_ok settings clk gps geocodeName s loc hauto hloc,
      onLocationSuccess_watchMessages]
    cases (getCachedLocation clk.tFetch s).1 with
    | none => rfl
    | some c =>
      simp only
      split <;> rfl
  · intro latitude longitude accuracy hgps hmem
    subst hgps
    rcases getCurrentLocation_fix clk latitude longitude accuracy
        (getCachedLocation clk.tFetch s).2 with hnil | ⟨location, hcur, hlat, hlon⟩
    · exfalso
      have h1 := getLocationWithName_gpsRequest clk _ geocodeName _
        (fetch_gpsRequest settings clk _ geocodeName s hauto hmem)
      rw [hnil] at h1
      cases h1
    · refine ⟨(nameLocation clk geocodeName location
        (getCurrentLocation clk (.fix latitude longitude accuracy)
          (getCachedLocation clk.tFetch s).2).2.2).1, ?_, ?_, ?_⟩
      · unfold getLocationWithName
        simp only [hcur]
      · rw [(nameLocation_coordinates clk geocodeName location _).1, hlat]
      · rw [(nameLocation_coordinates clk geocodeName location _).2, hlon]

/-- Counterexample to C6 as stated: the cached latitude is the double `1e-05`, the
fresh latitude the double `0.01001`, the longitudes are equal. The two fixes differ
by less than 0.01 degrees on both axes, yet the subtraction of the two doubles rounds
to the double 0.01, the test `latDiff < 0.01` fails and a second delivery is made. -/
theorem rounding_at_threshold_delivers :
    |toDouble (1001 / 100000) - toDouble (1 / 100000)| < 1 / 100 ∧
      |(30 : ℚ) - 30| < 1 / 100 ∧
      jsSub (toDouble (1001 / 100000)) (toDouble (1 / 100000)) = DOUBLE_0_01 ∧
      watchMessages (fetchAndSendPrayerData DEFAULT_SETTINGS sampleClock
          (.fix (toDouble (1001 / 100000)) 30 5) "New" sampleNearOriginState).1 =
        [.processPrayerData (toDouble (1 / 100000)) 30 "Home",
         .processPrayerData (toDouble (1001 / 100000)) 30 "New"] := by
  refine ⟨by decide!, by decide!, by decide!, by decide!⟩

/-- Witness for C6, amended: "Home" at (40, 30) is cached and delivered; the GPS then fixes
(40.5, 30), half a degree away in latitude, and a second delivery follows. -/
theorem fetchAndSendPrayerData_delta_suppression_witness :
    ¬ (DEFAULT_SETTINGS.manualLocation = true ∧ DEFAULT_SETTINGS.manualLatitude ≠ 0 ∧
        DEFAULT_SETTINGS.manualLongitude ≠ 0) ∧
      watchMessages (fetchAndSendPrayerData DEFAULT_SETTINGS sampleClock (.fix 40.5 30 5)
          "New" sampleCachedState).1 =
        [.processPrayerData 40 30 "Home", .processPrayerData 40.5 30 "New"] :=
  ⟨by decide,
    ((fetchAndSendPrayerData_delta_suppression DEFAULT_SETTINGS sampleClock (.fix 40.5 30 5)
        "New" sampleCachedState (by decide)).1
        { latitude := 40.5, longitude := 30, name := "New", suggestedMethod := "mwl" }
        (by decide!)).trans (by decide!)⟩

/-- C7: with `manualLocation` enabled and both manual coordinates non-zero,
`fetchAndSendPrayerData` makes exactly one call, `processPrayerData` with the manual
coordinates and the name "Manual Location", and returns: the location cache is not
read (and the location module's state is unchanged), and no location, GPS or
geocoding request is issued. -/
theorem fetchAndSendPrayerData_manual (settings : Settings) (clk : CycleClock)
    (gps : GpsOutcome) (geocodeName : String) (s : LocState)
    (hmanual : settings.manualLocation = true) (hlat : settings.manualLatitude ≠ 0)
    (hlon : settings.manualLongitude ≠ 0) :
    fetchAndSendPrayerData settings clk gps geocodeName s =
        ([.processPrayerData settings.manualLatitude settings.manualLongitude
            "Manual Location"], s) ∧
      Effect.readCache ∉ (fetchAndSendPrayerData settings clk gps geocodeName s).1 ∧
      Effect.requestLocation ∉ (fetchAndSendPrayerData settings clk gps geocodeName s).1 ∧
      Effect.gpsRequest ∉ (fetchAndSendPrayerData settings clk gps geocodeName s).1 ∧
      ∀ latitude longitude,
        Effect.geocodeRequest latitude longitude ∉
          (fetchAndSendPrayerData settings clk gps geocodeName s).1 := by
  have h : fetchAndSendPrayerData settings clk gps geocodeName s =
      ([.processPrayerData settings.manualLatitude settings.manualLongitude
          "Manual Location"], s) := by
    unfold fetchAndSendPrayerData
    rw [if_pos ⟨hmanual, hlat, hlon⟩]
  rw [h]
  simp

/-- Witness for C7: a manual location at (21.4225, 39.8262), whatever the cache holds
and whatever the GPS would answer. -/
theorem fetchAndSendPrayerData_manual_witness :
    sampleMakkah.manualLocation = true ∧ sampleMakkah.manualLatitude ≠ 0 ∧
      sampleMakkah.manualLongitude ≠ 0 ∧
      fetchAndSendPrayerData sampleMakkah sampleClock .error "X" sampleCachedState =
        ([.processPrayerData sampleMakkah.manualLatitude sampleMakkah.manualLongitude
            "Manual Location"], sampleCachedState) :=
  ⟨by decide, by decide!, by decide!,
    (fetchAndSendPrayerData_manual sampleMakkah sampleClock .error "X" sampleCachedState
      (by decide) (by decide!) (by decide!)).1⟩

/-- Counterexample to C8 as stated: the manual pair (51.5, 0) is not (0, 0), yet with
the override enabled it is not used: the cache is read, the GPS is asked, and the only
delivery is for the GPS fix. -/
theorem manual_single_zero_not_used :
    sampleGreenwich.manualLocation = true ∧
      (sampleGreenwich.manualLatitude, sampleGreenwich.manualLongitude) ≠ (0, 0) ∧
      (fetchAndSendPrayerData sampleGreenwich sampleClock (.fix 40 30 5) "X"
          LocState.initial).1 =
        [.readCache, .requestLocation, .gpsRequest, .geocodeRequest 40 30, .saveCache,
         .processPrayerData 40 30 "X"] := by
  refine ⟨by decide, by decide!, by decide!⟩

/-- C8, amended: with the manual override enabled, the manual pair is used (the single
call is `processPrayerData` with the manual coordinates) exactly when both coordinates
are non-zero; when either coordinate is 0 the pair is treated as unset: the cache is
read first and a location request is issued. -/
theorem manual_location_used_iff (settings : Settings) (clk : CycleClock)
    (gps : GpsOutcome) (geocodeName : String) (s : LocState)
    (hmanual : settings.manualLocation = true) :
    ((fetchAndSendPrayerData settings clk gps geocodeName s).1 =
        [.processPrayerData settings.manualLatitude settings.manualLongitude
          "Manual Location"] ↔
      (settings.manualLatitude ≠ 0 ∧ settings.manualLongitude ≠ 0)) ∧
    ((settings.manualLatitude = 0 ∨ settings.manualLongitude = 0) →
      ∃ rest, (fetchAndSendPrayerData settings clk gps geocodeName s).1 = .readCache :: rest ∧
        Effect.requestLocation ∈ rest) := by
  have hfall : (settings.manualLatitude = 0 ∨ settings.manualLongitude = 0) →
      ∃ rest, (fetchAndSendPrayerData settings clk gps geocodeName s).1 = .readCache :: rest ∧
        Effect.requestLocation ∈ rest := by
    intro hz
    have hauto : ¬ (settings.manualLocation = true ∧ settings.manualLatitude ≠ 0 ∧
        settings.manualLongitude ≠ 0) := by
      rintro ⟨_, h1, h2⟩
      rcases hz with h | h
      · exact h1 h
      · exact h2 h
    unfold fetchAndSendPrayerData
    rw [if_neg hauto]
    simp only
    split
    · exact ⟨_, rfl, by simp⟩
    · exact ⟨_, rfl, by simp⟩
  refine ⟨⟨?_, ?_⟩, hfall⟩
  · intro h
    by_contra hno
    have hz : settings.manualLatitude = 0 ∨ settings.manualLongitude = 0 := by
      by_contra hnz
      push_neg at hnz
      exact hno ⟨hnz.1, hnz.2⟩
    obtain ⟨rest, hrest, _⟩ := hfall hz
    rw [hrest] at h
    simp at h
  · rintro ⟨h1, h2⟩
    unfold fetchAndSendPrayerData
    rw [if_pos ⟨hmanual, h1, h2⟩]

/-- Witness for C8, amended: latitude 51.5 with longitude 0 falls through to the cache
and the location request. -/
theorem manual_location_used_iff_witness :
    sampleGreenwich.manualLocation = true ∧
      (sampleGreenwich.manualLatitude = 0 ∨ sampleGreenwich.manualLongitude = 0) ∧
      ∃ rest, (fetchAndSendPrayerData sampleGreenwich sampleClock (.fix 40 30 5) "X"
          LocState.initial).1 = .readCache :: rest ∧ Effect.requestLocation ∈ rest :=
  ⟨by decide, Or.inr (by decide!),
    (manual_location_used_iff sampleGreenwich sampleClock (.fix 40 30 5) "X"
      LocState.initial (by decide)).2 (Or.inr (by decide!))⟩

/-! ## Claims on the location cache -/

/-- Counterexample to C9 as stated: a location saved at time 0 is still held in memory
two days later, and `getCachedLocation` returns it, although its age is 48 hours. -/
theorem in_memory_hit_older_than_a_day :
    saveLocationCache 0 sampleHome LocState.initial = sampleCachedState ∧
      (getCachedLocation 172800000 sampleCachedState).1 = some sampleHome ∧
      sampleHome.timestamp = some 0 ∧
      ¬ ((172800000 : Int) - 0 < 24 * 60 * 60 * 1000) := by
  refine ⟨by decide!, by decide!, rfl, by decide⟩

/-- C9, amended: when the in-memory cache is empty, a location that `getCachedLocation`
returns is the persisted entry and its age `now - (timestamp or 0)` is strictly less
than 24 hours; a persisted entry whose age so computed is 24 hours or more is not
returned, in particular one without a timestamp at any `now` at least 24 hours after
the epoch. A location held in the in-memory cache is returned as it is, with no test
on its age. -/
theorem getCachedLocation_persisted_age (now : Int) (s : LocState) :
    (s.cachedLocation = none →
      (∀ loc, (getCachedLocation now s).1 = some loc →
        s.stored = .entry loc ∧ now - loc.timestamp.getD 0 < 24 * 60 * 60 * 1000) ∧
      (∀ data, s.stored = .entry data →
        24 * 60 * 60 * 1000 ≤ now - data.timestamp.getD 0 →
        (getCachedLocation now s).1 = none) ∧
      (∀ data, s.stored = .entry data → data.timestamp = none →
        24 * 60 * 60 * 1000 ≤ now → (getCachedLocation now s).1 = none)) ∧
    (∀ c, s.cachedLocation = some c → getCachedLocation now s = (some c, s)) := by
  have hexp : s.cachedLocation = none → ∀ data, s.stored = .entry data →
      24 * 60 * 60 * 1000 ≤ now - data.timestamp.getD 0 →
      (getCachedLocation now s).1 = none := by
    intro hm data hst hage
    have hnot : ¬ (now - timestampOrZero data < PERSISTED_CACHE_VALIDITY) := by
      simp only [timestampOrZero, PERSISTED_CACHE_VALIDITY]
      exact not_lt.mpr hage
    unfold getCachedLocation
    simp only [hm, hst, if_neg hnot]
  refine ⟨fun hm => ⟨?_, hexp hm, ?_⟩, fun c hc => getCachedLocation_of_memory now s c hc⟩
  · intro loc hloc
    unfold getCachedLocation at hloc
    simp only [hm] at hloc
    cases hst : s.stored with
    | absent => simp [hst] at hloc
    | malformed => simp [hst] at hloc
    | entry data =>
      simp only [hst] at hloc
      split at hloc
      · rename_i hage
        simp only [Option.some.injEq] at hloc
        subst hloc
        exact ⟨rfl, by simpa [timestampOrZero, PERSISTED_CACHE_VALIDITY] using hage⟩
      · simp at hloc
  · intro data hst hts hnow
    apply hexp hm data hst
    rw [hts]
    simpa using hnow

/-- Witness for C9, amended: after a restart (memory empty) the entry saved at time 0
is offered at 23 hours. -/
theorem getCachedLocation_persisted_age_witness :
    ({ sampleCachedState with cachedLocation := none } : LocState).cachedLocation = none ∧
      (getCachedLocation 82800000 { sampleCachedState with cachedLocation := none }).1 =
        some sampleHome ∧
      (82800000 : Int) - sampleHome.timestamp.getD 0 < 24 * 60 * 60 * 1000 :=
  ⟨rfl, by decide!,
    (((getCachedLocation_persisted_age 82800000
      { sampleCachedState with cachedLocation := none }).1 rfl).1 sampleHome
        (by decide!)).2⟩

/-! ## Claims on a failed location request -/

theorem abs_sub_self_lt (x : ℚ) : |jsSub x x| < DOUBLE_0_01 := by
  have h0 : jsSub x x = 0 := by
    unfold jsSub toDouble
    rw [sub_self, if_pos rfl]
  rw [h0, abs_zero]
  decide!

theorem getCurrentLocation_error_of_memory (clk : CycleClock) (c : Location) (s : LocState)
    (hm : s.cachedLocation = some c) :
    (getCurrentLocation clk .error s).1 = .ok c := by
  unfold getCurrentLocation
  simp only [hm]
  cases s.cachedTimestamp with
  | none => rfl
  | some ts =>
    simp only
    split
    · rename_i loc heq
      split at heq
      · simp only [Option.some.injEq] at heq; rw [heq]
      · cases heq
    · rfl

theorem getCurrentLocation_error_of_none (clk : CycleClock) (s : LocState)
    (hle : clk.tFetch ≤ clk.tCallback) (h : (getCachedLocation clk.tFetch s).1 = none) :
    (getCurrentLocation clk .error s).1 =
      .error { code := 1, message := "Location unavailable" } := by
  obtain ⟨_, hm, _⟩ := getCachedLocation_none clk.tFetch s h
  have hlater := getCachedLocation_none_later clk.tFetch clk.tCallback s hle h
  unfold getCurrentLocation
  simp only [hm, hlater]

/-- C10: without a usable manual location and with a clock that does not run
backwards, when the GPS request fails: if a cached location was delivered at the
start of the cycle, that delivery is the only message to the watch (no error, nothing
further); if no cached location existed, the only message is one Location error
(code 1, "Location unavailable"). -/
theorem fetchAndSendPrayerData_gps_failure (settings : Settings) (clk : CycleClock)
    (geocodeName : String) (s : LocState)
    (hauto : ¬ (settings.manualLocation = true ∧ settings.manualLatitude ≠ 0 ∧
      settings.manualLongitude ≠ 0))
    (hclock : clk.tFetch ≤ clk.tCallback) :
    watchMessages (fetchAndSendPrayerData settings clk .error geocodeName s).1 =
      match (getCachedLocation clk.tFetch s).1 with
      | some c =>
        [.processPrayerData c.latitude c.longitude
          ((truthyName c.name).getD "Cached Location")]
      | none => [.sendError 1 "Location unavailable"] := by
  cases hc : (getCachedLocation clk.tFetch s).1 with
  | none =>
    obtain ⟨hs, _, _⟩ := getCachedLocation_none clk.tFetch s hc
    have hcur := getCurrentLocation_error_of_none clk s hclock hc
    have hloc : (getLocationWithName clk .error geocodeName
        (getCachedLocation clk.tFetch s).2).1 =
        .error { code := 1, message := "Location unavailable" } := by
      rw [hs]
      unfold getLocationWithName
      simp only [hcur]
    rw [fetch_watchMessages_error settings clk .error geocodeName s _ hauto hloc, hc]
    rfl
  | some c =>
    have hm := getCachedLocation_some_memory clk.tFetch s c hc
    have hcur := getCurrentLocation_error_of_memory clk c _ hm
    have hloc : (getLocationWithName clk .error geocodeName
        (getCachedLocation clk.tFetch s).2).1 =
        .ok (nameLocation clk geocodeName c
          (getCurrentLocation clk .error (getCachedLocation clk.tFetch s).2).2.2).1 := by
      unfold getLocationWithName
      simp only [hcur]
    rw [fetch_watchMessages_ok settings clk .error geocodeName s _ hauto hloc,
      onLocationSuccess_watchMessages, hc]
    simp only
    have h1 := (nameLocation_coordinates clk geocodeName c
      (getCurrentLocation clk .error (getCachedLocation clk.tFetch s).2).2.2)
    rw [h1.1, h1.2]
    have hn : ¬ (|jsSub c.latitude c.latitude| ≥ DOUBLE_0_01 ∨ |jsSub c.longitude c.longitude| ≥ DOUBLE_0_01) := by
      rintro (h | h)
      · exact absurd (abs_sub_self_lt c.latitude) (not_lt.mpr h)
      · exact absurd (abs_sub_self_lt c.longitude) (not_lt.mpr h)
    rw [if_neg hn]
    rfl

/-- Witness for C10: with nothing cached, a failed GPS request ends in the single
Location error; with "Home" cached, in the single delivery of "Home". -/
theorem fetchAndSendPrayerData_gps_failure_witness :
    sampleClock.tFetch ≤ sampleClock.tCallback ∧
      watchMessages (fetchAndSendPrayerData DEFAULT_SETTINGS sampleClock .error "X"
          LocState.initial).1 = [.sendError 1 "Location unavailable"] ∧
      watchMessages (fetchAndSendPrayerData DEFAULT_SETTINGS sampleClock .error "X"
          sampleCachedState).1 = [.processPrayerData 40 30 "Home"] :=
  ⟨by decide,
    (fetchAndSendPrayerData_gps_failure DEFAULT_SETTINGS sampleClock "X" LocState.initial
      (by decide) (by decide)).trans (by decide!),
    (fetchAndSendPrayerData_gps_failure DEFAULT_SETTINGS sampleClock "X" sampleCachedState
      (by decide) (by decide)).trans (by decide!)⟩

/-! ## Claims on `suggestMethodByRegion` and on `formatTime` -/

/-- C11: every coordinate inside the Gulf rectangle (12 ≤ lat ≤ 35, 35 ≤ lon ≤ 60)
yields "umm_al_qura", whether or not it also lies in the Egypt/North-Africa or in the
Iran rectangle; (30, 48), which lies in the Gulf and in the Iran rectangle, yields
"umm_al_qura"; and every coordinate outside all six rectangles yields "mwl". -/
theorem suggestMethodByRegion_priority :
    (∀ latitude longitude : ℚ,
      12 ≤ latitude → latitude ≤ 35 → 35 ≤ longitude → longitude ≤ 60 →
        suggestMethodByRegion latitude longitude = "umm_al_qura") ∧
    suggestMethodByRegion 30 48 = "umm_al_qura" ∧
    suggestMethodByRegion 30 35 = "umm_al_qura" ∧
    (∀ latitude longitude : ℚ,
      ¬ (latitude ≥ 25 ∧ latitude ≤ 70 ∧ longitude ≥ -170 ∧ longitude ≤ -50) →
      ¬ (latitude ≥ 12 ∧ latitude ≤ 35 ∧ longitude ≥ 35 ∧ longitude ≤ 60) →
      ¬ (latitude ≥ 20 ∧ latitude ≤ 35 ∧ longitude ≥ -20 ∧ longitude ≤ 35) →
      ¬ (latitude ≥ 5 ∧ latitude ≤ 40 ∧ longitude ≥ 60 ∧ longitude ≤ 100) →
      ¬ (latitude ≥ 25 ∧ latitude ≤ 40 ∧ longitude ≥ 44 ∧ longitude ≤ 63) →
      ¬ (latitude ≥ -10 ∧ latitude ≤ 20 ∧ longitude ≥ 95 ∧ longitude ≤ 145) →
        suggestMethodByRegion latitude longitude = "mwl") := by
  refine ⟨?_, by decide!, by decide!, ?_⟩
  · intro latitude longitude h1 h2 h3 h4
    have hna : ¬ (latitude ≥ 25 ∧ latitude ≤ 70 ∧ longitude ≥ -170 ∧ longitude ≤ -50) := by
      rintro ⟨_, _, _, h⟩
      linarith
    unfold suggestMethodByRegion
    rw [if_neg hna, if_pos ⟨h1, h2, h3, h4⟩]
  · intro latitude longitude h1 h2 h3 h4 h5 h6
    unfold suggestMethodByRegion
    rw [if_neg h1, if_neg h2, if_neg h3, if_neg h4, if_neg h5, if_neg h6]

/-- Witness for C11: (21.4225, 39.8262) lies in the Gulf rectangle; (0, 0) lies in
none of the six. -/
theorem suggestMethodByRegion_priority_witness :
    suggestMethodByRegion 21.4225 39.8262 = "umm_al_qura" ∧
      suggestMethodByRegion 0 0 = "mwl" :=
  ⟨suggestMethodByRegion_priority.1 21.4225 39.8262 (by norm_num) (by norm_num)
      (by norm_num) (by norm_num),
    suggestMethodByRegion_priority.2.2.2 0 0 (by norm_num) (by norm_num) (by norm_num)
      (by norm_num) (by norm_num) (by norm_num)⟩

theorem pad_eq_twoDigits (n : Nat) : pad n = twoDigits n := by
  unfold pad twoDigits
  split
  · rfl
  · exact String.empty_append _

/-- C16: for every hour `h` in 0..23 and minute `m` in 0..59 read from the date,
12-hour `formatTime` yields the hour (12 for `h` 0 and 12, `h mod 12` otherwise, no
leading zero), a colon, the minute in exactly two digits, a blank and AM for `h < 12`,
PM for `h ≥ 12`; 00:05 gives "12:05 AM", 13:00 gives "1:00 PM" and 23:59 gives
"11:59 PM". -/
theorem formatTime_twelve_hour (cal : LocalCalendar) (date : Int)
    (hh : cal.getHours date < 24) (hm : cal.getMinutes date < 60) :
    formatTime cal date false = formatTime12Spec (cal.getHours date) (cal.getMinutes date) ∧
      (twoDigits (cal.getMinutes date)).length = 2 ∧
      formatTime12Spec 0 5 = "12:05 AM" ∧ formatTime12Spec 13 0 = "1:00 PM" ∧
      formatTime12Spec 23 59 = "11:59 PM" := by
  refine ⟨?_, ?_, by decide, by decide, by decide⟩
  · unfold formatTime formatTime12Spec
    simp only [Bool.false_eq_true, if_false, pad_eq_twoDigits]
    generalize cal.getHours date = h at hh
    have hsuffix : (if h ≥ 12 then "PM" else "AM") = (if h < 12 then "AM" else "PM") := by
      by_cases h12 : h < 12
      · rw [if_pos h12, if_neg (by omega)]
      · rw [if_neg h12, if_pos (by omega)]
    have hhour : (if h % 12 = 0 then 12 else h % 12) =
        (if h = 0 ∨ h = 12 then 12 else h % 12) := by
      by_cases h0 : h = 0 ∨ h = 12
      · rw [if_pos h0, if_pos (by omega)]
      · rw [if_neg h0, if_neg (by omega)]
    rw [hsuffix, hhour]
  · generalize cal.getMinutes date = m at hm
    revert m
    decide

/-- Witness for C16: five minutes past midnight, UTC. -/
theorem formatTime_twelve_hour_witness :
    utcCalendar.getHours 300000 < 24 ∧ utcCalendar.getMinutes 300000 < 60 ∧
      formatTime utcCalendar 300000 false = "12:05 AM" :=
  ⟨by decide, by decide,
    (formatTime_twelve_hour utcCalendar 300000 (by decide) (by decide)).1.trans (by decide)⟩

/-! ## Claims on the timeline pins -/

theorem padByLength_eq_twoDigits (n : Nat) (h : n < 32) :
    (if (toString n).length = 1 then "0" ++ toString n else toString n) = twoDigits n := by
  revert n
  decide

theorem createPrayerPin_id_eq (rt : DateRuntime) (prayerName : String) (prayerTime : Int)
    (displayName formattedTime : String) (reminderMinutes : Int) :
    (createPrayerPin rt prayerName prayerTime displayName formattedTime reminderMinutes).id =
      PIN_PREFIX ++ prayerName ++ "-" ++ formatDateForId rt prayerTime := by
  unfold createPrayerPin
  simp only
  split <;> rfl

theorem createPrayerPin_time_duration (rt : DateRuntime) (prayerName : String)
    (prayerTime : Int) (displayName formattedTime : String) (reminderMinutes : Int) :
    (createPrayerPin rt prayerName prayerTime displayName formattedTime reminderMinutes).time =
        toISOString rt prayerTime ∧
      (createPrayerPin rt prayerName prayerTime displayName formattedTime
        reminderMinutes).duration = 30 := by
  unfold createPrayerPin
  simp only
  split <;> exact ⟨rfl, rfl⟩

/-- C12: for every prayer name and instant (whose month and day of month the runtime
reports in range), the id of the pin built by `createPrayerPin` is "prayer-keeper-",
the prayer name, "-", the year, "-", the month in two digits, "-", the day in two
digits; two calls with the same name and the same calendar date give the same id,
whatever the time of day, the display name, the formatted time and the reminder lead;
Fajr on 2024-03-15 gives "prayer-keeper-fajr-2024-03-15". -/
theorem createPrayerPin_id (rt : DateRuntime) (prayerName : String) (prayerTime : Int)
    (displayName formattedTime : String) (reminderMinutes : Int)
    (hmonth : rt.getMonth prayerTime < 12) (hday : rt.getDate prayerTime < 32) :
    (createPrayerPin rt prayerName prayerTime displayName formattedTime reminderMinutes).id =
        "prayer-keeper-" ++ prayerName ++ "-" ++ toString (rt.getFullYear prayerTime) ++ "-" ++
          twoDigits (rt.getMonth prayerTime + 1) ++ "-" ++ twoDigits (rt.getDate prayerTime) ∧
      (∀ (otherTime : Int) (otherName otherFormatted : String) (otherLead : Int),
        rt.getFullYear otherTime = rt.getFullYear prayerTime →
        rt.getMonth otherTime = rt.getMonth prayerTime →
        rt.getDate otherTime = rt.getDate prayerTime →
          (createPrayerPin rt prayerName otherTime otherName otherFormatted otherLead).id =
            (createPrayerPin rt prayerName prayerTime displayName formattedTime
              reminderMinutes).id) ∧
      (createPrayerPin utcRuntime "fajr" 1710478800000 "Fajr" "5:00 AM" 10).id =
        "prayer-keeper-fajr-2024-03-15" := by
  refine ⟨?_, ?_, by decide⟩
  · rw [createPrayerPin_id_eq]
    unfold formatDateForId PIN_PREFIX
    simp only
    rw [padByLength_eq_twoDigits _ (by omega), padByLength_eq_twoDigits _ hday]
    simp only [String.append_assoc]
  · intro otherTime otherName otherFormatted otherLead hy hm hd
    rw [createPrayerPin_id_eq, createPrayerPin_id_eq]
    unfold formatDateForId
    simp only [hy, hm, hd]

/-- Witness for C12: Fajr at 05:00 and a second call at 19:30 of 2024-03-15, with
another display name and lead, give the same id. -/
theorem createPrayerPin_id_witness :
    utcRuntime.getMonth 1710478800000 < 12 ∧ utcRuntime.getDate 1710478800000 < 32 ∧
      (createPrayerPin utcRuntime "fajr" 1710531000000 "Fajr (again)" "7:30 PM" 0).id =
        (createPrayerPin utcRuntime "fajr" 1710478800000 "Fajr" "5:00 AM" 10).id :=
  ⟨by decide, by decide,
    (createPrayerPin_id utcRuntime "fajr" 1710478800000 "Fajr" "5:00 AM" 10 (by decide)
      (by decide)).2.1 1710531000000 "Fajr (again)" "7:30 PM" 0 (by decide) (by decide)
      (by decide)⟩

/-- C13: with the timeline enabled, `createDayPins` hands exactly five pins to
`insertPin`, built in this order from the Fajr, Dhuhr, Asr, Maghrib and Isha entries;
each has duration 30 and, as start time, the ISO rendering of that prayer's own
instant; the Sunrise instant plays no part: changing it changes nothing. -/
theorem createDayPins_five_pins (cal : LocalCalendar) (rt : DateRuntime) (stored : Settings)
    (prayerTimes : PrayerTimes) (options : Option DayOptions) (hasCallback : Bool)
    (henabled : stored.timelineEnabled = true) :
    (createDayPins cal rt stored prayerTimes options hasCallback).issued.length = 5 ∧
      (createDayPins cal rt stored prayerTimes options hasCallback).issued.map
          (fun pin => (pin.id, pin.time, pin.duration)) =
        [ (PIN_PREFIX ++ "fajr" ++ "-" ++ formatDateForId rt prayerTimes.fajr,
            toISOString rt prayerTimes.fajr, 30),
          (PIN_PREFIX ++ "dhuhr" ++ "-" ++ formatDateForId rt prayerTimes.dhuhr,
            toISOString rt prayerTimes.dhuhr, 30),
          (PIN_PREFIX ++ "asr" ++ "-" ++ formatDateForId rt prayerTimes.asr,
            toISOString rt prayerTimes.asr, 30),
          (PIN_PREFIX ++ "maghrib" ++ "-" ++ formatDateForId rt prayerTimes.maghrib,
            toISOString rt prayerTimes.maghrib, 30),
          (PIN_PREFIX ++ "isha" ++ "-" ++ formatDateForId rt prayerTimes.isha,
            toISOString rt prayerTimes.isha, 30) ] ∧
      (createDayPins cal rt stored prayerTimes options hasCallback).issued.map
          (fun pin => pin.layout.title) =
        ["Fajr Prayer", "Dhuhr Prayer", "Asr Prayer", "Maghrib Prayer", "Isha Prayer"] ∧
      (∀ otherSunrise : Int,
        createDayPins cal rt stored { prayerTimes with sunrise := otherSunrise } options
            hasCallback =
          createDayPins cal rt stored prayerTimes options hasCallback) := by
  have hne : ¬ ¬ stored.timelineEnabled = true := not_not.mpr henabled
  refine ⟨?_, ?_, ?_, ?_⟩
  · unfold createDayPins
    rw [if_neg hne]
    simp [dayPrayers]
  · unfold createDayPins
    rw [if_neg hne]
    simp only [dayPrayers, List.map_cons, List.map_nil, createPrayerPin_id_eq,
      createPrayerPin_time_duration]
  · unfold createDayPins
    rw [if_neg hne]
    simp only [dayPrayers, List.map_cons, List.map_nil]
    unfold createPrayerPin
    simp only
    split <;> rfl
  · intro otherSunrise
    unfold createDayPins
    rw [if_neg hne, if_neg hne]
    rfl

/-- Witness for C13: the five pins of the sample day, 2024-03-15. -/
theorem createDayPins_five_pins_witness :
    DEFAULT_SETTINGS.timelineEnabled = true ∧
      (createDayPins utcCalendar utcRuntime DEFAULT_SETTINGS sampleDay none true).issued.map
          (fun pin => (pin.id, pin.time, pin.duration)) =
        [ ("prayer-keeper-fajr-2024-03-15", "2024-03-15T05:00:00Z", 30),
          ("prayer-keeper-dhuhr-2024-03-15", "2024-03-15T12:00:00Z", 30),
          ("prayer-keeper-asr-2024-03-15", "2024-03-15T15:30:00Z", 30),
          ("prayer-keeper-maghrib-2024-03-15", "2024-03-15T18:00:00Z", 30),
          ("prayer-keeper-isha-2024-03-15", "2024-03-15T19:30:00Z", 30) ] :=
  ⟨by decide,
    (createDayPins_five_pins utcCalendar utcRuntime DEFAULT_SETTINGS sampleDay none true
      (by decide)).2.1.trans (by decide)⟩

/-- C14, the code at the failing input: with the timeline enabled, the stored lead at
its default 10 and `options.reminderMinutes = 0`, each of the five pins of the sample
day still carries one reminder, fired 10 minutes before the prayer; `createPrayerPin`
itself, given the lead 0, attaches none. -/
theorem createDayPins_zero_lead_keeps_reminder :
    (createDayPins utcCalendar utcRuntime DEFAULT_SETTINGS sampleDay
        (some { reminderMinutes := some 0, use24Hour := none }) true).issued.map
        (fun pin => (pin.time, pin.reminders.map fun rs => rs.map Reminder.time)) =
      [ ("2024-03-15T05:00:00Z", some ["2024-03-15T04:50:00Z"]),
        ("2024-03-15T12:00:00Z", some ["2024-03-15T11:50:00Z"]),
        ("2024-03-15T15:30:00Z", some ["2024-03-15T15:20:00Z"]),
        ("2024-03-15T18:00:00Z", some ["2024-03-15T17:50:00Z"]),
        ("2024-03-15T19:30:00Z", some ["2024-03-15T19:20:00Z"]) ] ∧
      (createPrayerPin utcRuntime "fajr" sampleDay.fajr "Fajr" "5:00 AM" 0).reminders = none := by
  refine ⟨by decide, by decide⟩

theorem runCompletions_eq (total : Nat) (events : List (Nat × HttpOutcome))
    (completed : Nat) :
    runCompletions total true completed events =
      (completed + events.length,
        if completed < total ∧ total ≤ completed + events.length then 1 else 0) := by
  induction events generalizing completed with
  | nil =>
    simp only [runCompletions, List.length_nil, Nat.add_zero]
    rw [if_neg (by omega)]
  | cons e rest ih =>
    simp only [runCompletions, onPinInserted, ih, List.length_cons, and_true]
    refine Prod.ext (by simp only; omega) ?_
    simp only
    by_cases h1 : completed + 1 = total
    · rw [if_pos h1, if_neg (by omega), if_pos (by omega)]
    · rw [if_neg h1, Nat.zero_add]
      by_cases h2 : completed + 1 < total ∧ total ≤ completed + 1 + rest.length
      · rw [if_pos h2, if_pos (by omega)]
      · rw [if_neg h2, if_neg (by omega)]

/-- C15: with the timeline enabled and a callback given, `createDayPins` issues its
five requests without invoking the callback; then, whatever the order in which the
requests end and whether each ends with status 200, another status or a network
error, every ended request is counted, the callback has not been invoked while fewer
than five have ended, and it has been invoked exactly once when five have. -/
theorem createDayPins_completion (cal : LocalCalendar) (rt : DateRuntime)
    (stored : Settings) (prayerTimes : PrayerTimes) (options : Option DayOptions)
    (henabled : stored.timelineEnabled = true) (events : List (Nat × HttpOutcome)) :
    (createDayPins cal rt stored prayerTimes options true).issued.length = 5 ∧
      (createDayPins cal rt stored prayerTimes options true).callbacks = 0 ∧
      (runCompletions (createDayPins cal rt stored prayerTimes options true).issued.length
          true 0 events).1 = events.length ∧
      (events.length < 5 →
        (runCompletions (createDayPins cal rt stored prayerTimes options true).issued.length
          true 0 events).2 = 0) ∧
      (events.length = 5 →
        (runCompletions (createDayPins cal rt stored prayerTimes options true).issued.length
          true 0 events).2 = 1 ∧
        (runCompletions (createDayPins cal rt stored prayerTimes options true).issued.length
          true 0 events.dropLast).2 = 0) := by
  have hne : ¬ ¬ stored.timelineEnabled = true := not_not.mpr henabled
  have hlen : (createDayPins cal rt stored prayerTimes options true).issued.length = 5 := by
    unfold createDayPins
    rw [if_neg hne]
    simp [dayPrayers]
  have hcb : (createDayPins cal rt stored prayerTimes options true).callbacks = 0 := by
    unfold createDayPins
    rw [if_neg hne]
  rw [hlen]
  refine ⟨rfl, hcb, ?_, ?_, ?_⟩
  · rw [runCompletions_eq]; simp
  · intro hlt
    rw [runCompletions_eq]
    simp only
    rw [if_neg (by omega)]
  · intro heq
    rw [runCompletions_eq, runCompletions_eq]
    simp only [List.length_dropLast]
    rw [if_pos (by omega), if_neg (by omega)]
    exact ⟨rfl, rfl⟩

/-- Witness for C15: the third request fails on the network, the fifth answers 500,
the others answer 200, in the order 2, 0, 4, 1, 3; the callback runs once, at the
fifth completion. -/
theorem createDayPins_completion_witness :
    DEFAULT_SETTINGS.timelineEnabled = true ∧
      (runCompletions 5 true 0
        [(2, .networkError), (0, .load 200), (4, .load 500), (1, .load 200)]).2 = 0 ∧
      (runCompletions
        (createDayPins utcCalendar utcRuntime DEFAULT_SETTINGS sampleDay none true).issued.length
        true 0
        [(2, .networkError), (0, .load 200), (4, .load 500), (1, .load 200),
         (3, .load 200)]).2 = 1 :=
  ⟨by decide, by decide,
    ((createDayPins_completion utcCalendar utcRuntime DEFAULT_SETTINGS sampleDay none
      (by decide)
      [(2, .networkError), (0, .load 200), (4, .load 500), (1, .load 200),
       (3, .load 200)]).2.2.2.2 (by decide)).1⟩

/-! ## Claims on `processPrayerData` -/

theorem tryCalculatePrayerTimes_total (adhan : Adhan) (latitude longitude : ℚ) (date : Int)
    (method asrMethod : Option String) :
    tryCalculatePrayerTimes adhan.toThrowing latitude longitude date method asrMethod =
      some (calculatePrayerTimes adhan latitude longitude date method asrMethod) := rfl

theorem tryGetPrayerData_total (adhan : Adhan) (cal : LocalCalendar) (latitude longitude : ℚ)
    (method asrMethod : Option String) (use24Hour : Bool) (now : Int) :
    tryGetPrayerData adhan.toThrowing cal latitude longitude method asrMethod use24Hour now =
      getPrayerData adhan cal latitude longitude method asrMethod use24Hour now := by
  unfold tryGetPrayerData getPrayerData resolveTomorrow
  simp only [tryCalculatePrayerTimes_total]
  by_cases h : (getNextPrayer (calculatePrayerTimes adhan latitude longitude now method
      asrMethod) now).isTomorrow = true
  · simp only [h, if_true]
  · simp only [h, Bool.false_eq_true, if_false]

/-- C19: when the prayer computation of `getPrayerData` throws inside
`processPrayerData`, the only call made is one `sendAppMessage` with the Calculation
error (code 3, "Calculation failed"): no prayer-data payload is sent, the timeline is
not touched, and whatever the outcome of sending that error, no retry action is taken
and the retry counter keeps its value. -/
theorem processPrayerData_calculation_failure (adhan : ThrowingAdhan) (cal : LocalCalendar)
    (now later : Int) (refreshThrows : Bool) (latitude longitude : ℚ) (locationName : String)
    (currentSettings : Settings)
    (hthrows : tryGetPrayerData adhan cal latitude longitude
      (some currentSettings.calculationMethod) (some currentSettings.asrMethod) false now =
        none) :
    processPrayerData adhan cal now later refreshThrows latitude longitude locationName
        currentSettings = [.message (.error 3 "Calculation failed")] ∧
      (∀ times nextPrayer name code,
        WatchMessage.prayerData times nextPrayer name code ∉
          sentMessages (processPrayerData adhan cal now later refreshThrows latitude longitude
            locationName currentSettings)) ∧
      (∀ retryCount outcome,
        messageCallback (.error 3 "Calculation failed") retryCount outcome =
          (retryCount, [])) := by
  have h : processPrayerData adhan cal now later refreshThrows latitude longitude locationName
      currentSettings = [.message (.error 3 "Calculation failed")] := by
    unfold processPrayerData
    simp only [hthrows]
    rfl
  refine ⟨h, ?_, fun _ _ => rfl⟩
  intro times nextPrayer name code
  rw [h]
  simp [sentMessages]

/-- Witness for C19: a calculator that throws for every date. -/
theorem processPrayerData_calculation_failure_witness :
    tryGetPrayerData (sampleAdhanUntil 0) utcCalendar 40 30
        (some DEFAULT_SETTINGS.calculationMethod) (some DEFAULT_SETTINGS.asrMethod) false
        1710500000000 = none ∧
      processPrayerData (sampleAdhanUntil 0) utcCalendar 1710500000000 1710500000001 false
        40 30 "Home" DEFAULT_SETTINGS = [.message (.error 3 "Calculation failed")] :=
  ⟨by decide,
    (processPrayerData_calculation_failure (sampleAdhanUntil 0) utcCalendar 1710500000000
      1710500000001 false 40 30 "Home" DEFAULT_SETTINGS (by decide)).1⟩

/-- Counterexample to C20 as stated: at 22:00, after Isha, today's computation
succeeds, but the computation for tomorrow, needed for the next prayer, throws; the
invocation sends the Calculation error alone and no prayer-data payload. -/
theorem after_isha_failure_sends_error_only :
    tryCalculatePrayerTimes (sampleAdhanUntil 1710547200000) 40 30 1710540000000
        (some DEFAULT_SETTINGS.calculationMethod) (some DEFAULT_SETTINGS.asrMethod) =
      some sampleDay ∧
    sentMessages
        (processPrayerData (sampleAdhanUntil 1710547200000) utcCalendar 1710540000000
          1710540000001 false 40 30 "Home" DEFAULT_SETTINGS) =
      [.error 3 "Calculation failed"] := by
  refine ⟨by decide, by decide⟩

theorem getNextPrayer_cases (now : Int) (today : PrayerTimes) :
    (∃ p ∈ prayers today, now < p.time ∧ getNextPrayer today now = upcoming p now) ∨
      getNextPrayer today now = tomorrowSentinel := by
  by_cases h : ∃ p ∈ prayers today, now < p.time
  · obtain ⟨pre, p, post, hl, _, hp, hres⟩ := getNextPrayerLoop_split (prayers today) now h
    exact Or.inl ⟨p, by rw [hl]; simp, hp, hres⟩
  · refine Or.inr ((getNextPrayerLoop_sentinel_iff (prayers today) now).mpr ?_)
    intro p hp
    by_contra hlt
    exact h ⟨p, hp, not_le.mp hlt⟩

theorem tryGetPrayerData_upcoming (adhan : ThrowingAdhan) (cal : LocalCalendar)
    (latitude longitude : ℚ) (method asrMethod : Option String) (use24Hour : Bool)
    (now : Int) (today : PrayerTimes) (p : PrayerEntry)
    (htoday : tryCalculatePrayerTimes adhan latitude longitude now method asrMethod =
      some today)
    (hnext : getNextPrayer today now = upcoming p now) :
    tryGetPrayerData adhan cal latitude longitude method asrMethod use24Hour now =
      some { times := minuteTimes cal today,
             nextPrayer := { name := p.name, timeFormatted := formatTime cal p.time use24Hour,
                             countdownSeconds := Int.fdiv (p.time - now) 1000 },
             rawTimes := today } := by
  unfold tryGetPrayerData
  simp only [htoday, hnext, upcoming, Bool.false_eq_true, if_false]
  rfl

theorem tryGetPrayerData_sentinel (adhan : ThrowingAdhan) (cal : LocalCalendar)
    (latitude longitude : ℚ) (method asrMethod : Option String) (use24Hour : Bool)
    (now : Int) (today : PrayerTimes)
    (htoday : tryCalculatePrayerTimes adhan latitude longitude now method asrMethod =
      some today)
    (hnext : getNextPrayer today now = tomorrowSentinel) :
    tryGetPrayerData adhan cal latitude longitude method asrMethod use24Hour now =
      match tryCalculatePrayerTimes adhan latitude longitude (cal.nextDay now) method
          asrMethod with
      | none => none
      | some tomorrowTimes =>
        some { times := minuteTimes cal today,
               nextPrayer := { name := "Fajr",
                               timeFormatted := formatTime cal tomorrowTimes.fajr use24Hour,
                               countdownSeconds := Int.fdiv (tomorrowTimes.fajr - now) 1000 },
               rawTimes := today } := by
  unfold tryGetPrayerData
  simp only [htoday, hnext, tomorrowSentinel, if_true]
  cases tryCalculatePrayerTimes adhan latitude longitude (cal.nextDay now) method asrMethod with
  | none => rfl
  | some tomorrowTimes => rfl

theorem processPrayerData_of_data (adhan : ThrowingAdhan) (cal : LocalCalendar)
    (now later : Int) (refreshThrows : Bool) (latitude longitude : ℚ) (locationName : String)
    (currentSettings : Settings) (data : PrayerData)
    (hdata : tryGetPrayerData adhan cal latitude longitude
      (some currentSettings.calculationMethod) (some currentSettings.asrMethod) false now =
        some data) :
    (∃ rest, sentMessages (processPrayerData adhan cal now later refreshThrows latitude
        longitude locationName currentSettings) =
      sendPrayerDataToWatch data locationName :: rest) ∧
    (timelineStepSucceeds adhan cal later refreshThrows latitude longitude currentSettings →
      sentMessages (processPrayerData adhan cal now later refreshThrows latitude longitude
        locationName currentSettings) = [sendPrayerDataToWatch data locationName]) := by
  unfold processPrayerData timelineStepSucceeds
  simp only [hdata]
  by_cases hen : currentSettings.timelineEnabled = true
  · simp only [hen, if_true, true_implies]
    cases htom : tryCalculatePrayerTimes adhan latitude longitude (cal.nextDay later)
        (some currentSettings.calculationMethod) (some currentSettings.asrMethod) with
    | none =>
      refine ⟨⟨_, rfl⟩, ?_⟩
      intro h
      simp at h
    | some tomorrowData =>
      simp only
      by_cases hr : refreshThrows = true
      · simp only [hr, if_true]
        refine ⟨⟨_, rfl⟩, ?_⟩
        intro h
        simp at h
      · simp only [hr, if_false]
        exact ⟨⟨_, rfl⟩, fun _ => rfl⟩
  · simp only [hen, if_false]
    exact ⟨⟨_, rfl⟩, fun _ => rfl⟩

/-- C20, amended: an invocation of `processPrayerData` whose timeline step does not
throw sends exactly one message to the watch. It is the Calculation error (code 3)
when today's computation throws, and also when no instant of today is still ahead
and the computation of tomorrow's Fajr throws; otherwise it is the prayer-data
payload with error code 0, for the first instant of today still ahead or for
tomorrow's Fajr; one of the two cases always applies. A failing timeline step does
not prevent that payload from being sent: it is then still the first message. -/
theorem processPrayerData_one_message (adhan : ThrowingAdhan) (cal : LocalCalendar)
    (now later : Int) (refreshThrows : Bool) (latitude longitude : ℚ) (locationName : String)
    (currentSettings : Settings) :
    (tryCalculatePrayerTimes adhan latitude longitude now
        (some currentSettings.calculationMethod) (some currentSettings.asrMethod) = none →
      sentMessages (processPrayerData adhan cal now later refreshThrows latitude longitude
        locationName currentSettings) = [.error 3 "Calculation failed"]) ∧
    (∀ today, tryCalculatePrayerTimes adhan latitude longitude now
        (some currentSettings.calculationMethod) (some currentSettings.asrMethod) =
          some today →
      (∀ p, getNextPrayer today now = upcoming p now →
        (∃ rest, sentMessages (processPrayerData adhan cal now later refreshThrows latitude
            longitude locationName currentSettings) =
          payloadFor cal today p.name p.time now locationName :: rest) ∧
        (timelineStepSucceeds adhan cal later refreshThrows latitude longitude
            currentSettings →
          sentMessages (processPrayerData adhan cal now later refreshThrows latitude
            longitude locationName currentSettings) =
            [payloadFor cal today p.name p.time now locationName])) ∧
      (getNextPrayer today now = tomorrowSentinel →
        (tryCalculatePrayerTimes adhan latitude longitude (cal.nextDay now)
            (some currentSettings.calculationMethod) (some currentSettings.asrMethod) =
              none →
          sentMessages (processPrayerData adhan cal now later refreshThrows latitude
            longitude locationName currentSettings) = [.error 3 "Calculation failed"]) ∧
        (∀ tomorrowTimes,
          tryCalculatePrayerTimes adhan latitude longitude (cal.nextDay now)
            (some currentSettings.calculationMethod) (some currentSettings.asrMethod) =
              some tomorrowTimes →
          (∃ rest, sentMessages (processPrayerData adhan cal now later refreshThrows
              latitude longitude locationName currentSettings) =
            payloadFor cal today "Fajr" tomorrowTimes.fajr now locationName :: rest) ∧
          (timelineStepSucceeds adhan cal later refreshThrows latitude longitude
              currentSettings →
            sentMessages (processPrayerData adhan cal now later refreshThrows latitude
              longitude locationName currentSettings) =
              [payloadFor cal today "Fajr" tomorrowTimes.fajr now locationName])))) ∧
    (∀ today : PrayerTimes,
      (∃ p ∈ prayers today, now < p.time ∧ getNextPrayer today now = upcoming p now) ∨
        getNextPrayer today now = tomorrowSentinel) := by
  refine ⟨?_, ?_, getNextPrayer_cases now⟩
  · intro hnone
    have hdata : tryGetPrayerData adhan cal latitude longitude
        (some currentSettings.calculationMethod) (some currentSettings.asrMethod) false
        now = none := by
      unfold tryGetPrayerData
      simp only [hnone]
    unfold processPrayerData
    simp only [hdata]
    rfl
  · intro today htoday
    refine ⟨?_, ?_⟩
    · intro p hp
      exact processPrayerData_of_data adhan cal now later refreshThrows latitude longitude
        locationName currentSettings _
        (tryGetPrayerData_upcoming adhan cal latitude longitude _ _ false now today p htoday hp)
    · intro hsent
      have hdata := tryGetPrayerData_sentinel adhan cal latitude longitude
        (some currentSettings.calculationMethod) (some currentSettings.asrMethod) false now
        today htoday hsent
      refine ⟨?_, ?_⟩
      · intro hnone
        rw [hnone] at hdata
        unfold processPrayerData
        simp only [hdata]
        rfl
      · intro tomorrowTimes htom
        rw [htom] at hdata
        exact processPrayerData_of_data adhan cal now later refreshThrows latitude longitude
          locationName currentSettings _ hdata

/-- Witness for C20, amended: at 10:53 the next prayer is Dhuhr at 12:00 and the
timeline step succeeds; one message, the payload, is sent. -/
theorem processPrayerData_one_message_witness :
    tryCalculatePrayerTimes (sampleAdhanUntil 1810547200000) 40 30 1710500000000
        (some DEFAULT_SETTINGS.calculationMethod) (some DEFAULT_SETTINGS.asrMethod) =
      some sampleDay ∧
    getNextPrayer sampleDay 1710500000000 = upcoming ⟨"Dhuhr", 1710504000000⟩ 1710500000000 ∧
    sentMessages
        (processPrayerData (sampleAdhanUntil 1810547200000) utcCalendar 1710500000000
          1710500000001 false 40 30 "Home" DEFAULT_SETTINGS) =
      [payloadFor utcCalendar sampleDay "Dhuhr" 1710504000000 1710500000000 "Home"] :=
  ⟨by decide, by decide,
    (((processPrayerData_one_message (sampleAdhanUntil 1810547200000) utcCalendar
      1710500000000 1710500000001 false 40 30 "Home" DEFAULT_SETTINGS).2.1 sampleDay
      (by decide)).1 ⟨"Dhuhr", 1710504000000⟩ (by decide)).2
      (fun _ => ⟨by decide, rfl⟩)⟩

/-- The timeline step inside the `try` block: today's computation succeeds and the
computation for tomorrow, made for the timeline, throws; the watch is sent the
prayer-data payload and then, in the same invocation, the Calculation error. -/
theorem timeline_failure_sends_second_message :
    sentMessages
        (processPrayerData (sampleAdhanUntil 1710547200000) utcCalendar 1710500000000
          1710500000001 false 40 30 "Home" DEFAULT_SETTINGS) =
      [ payloadFor utcCalendar sampleDay "Dhuhr" 1710504000000 1710500000000 "Home",
        .error 3 "Calculation failed" ] := by
  decide

/-! ## Claims on the configuration URL -/

theorem indexOf_append_of_not_mem (c : Char) (pre rest : List Char) (h : c ∉ pre) :
    indexOf c (pre ++ c :: rest) = some pre.length := by
  induction pre with
  | nil => simp [indexOf]
  | cons x xs ih =>
    have hx : x ≠ c := fun e => h (by simp [e])
    have hxs : c ∉ xs := fun e => h (List.mem_cons_of_mem _ e)
    simp [indexOf, hx, ih hxs]

theorem indexOf_eq_none (c : Char) (l : List Char) (h : c ∉ l) : indexOf c l = none := by
  induction l with
  | nil => rfl
  | cons x xs ih =>
    have hx : x ≠ c := fun e => h (by simp [e])
    have hxs : c ∉ xs := fun e => h (List.mem_cons_of_mem _ e)
    simp [indexOf, hx, ih hxs]

theorem configDataOf_hash (configUrl : String) (pre rest : List Char)
    (hsplit : configUrl.data = pre ++ '#' :: rest) (hpre : '#' ∉ pre) :
    configDataOf configUrl = some (String.mk rest) := by
  unfold configDataOf
  simp only [hsplit, indexOf_append_of_not_mem '#' pre rest hpre]
  congr 2
  simp

theorem configDataOf_question (configUrl : String) (pre rest : List Char)
    (hsplit : configUrl.data = pre ++ '?' :: rest) (hpre : '?' ∉ pre)
    (hhash : '#' ∉ configUrl.data) :
    configDataOf configUrl = some (String.mk rest) := by
  unfold configDataOf
  rw [indexOf_eq_none '#' _ hhash]
  simp only [hsplit, indexOf_append_of_not_mem '?' pre rest hpre]
  congr 2
  simp

theorem convertValue_eq (B : Builtins) (value : String) :
    convertValue B value =
      (if value = "true" then .bool true
       else if value = "false" then .bool false
       else if value ≠ "" ∧ B.isNaN value = false then B.parseFloat value
       else .str value) := by
  unfold convertValue
  simp only [and_comm]

theorem parsePairs_eq_foldl (B : Builtins) (pieces : List (List Char)) (settings : JsObject) :
    parsePairs B pieces settings =
      (pieces.takeWhile (pieceDecodable B)).foldl (legacyPieceSpec B) settings := by
  induction pieces generalizing settings with
  | nil => rfl
  | cons piece rest ih =>
    rw [List.takeWhile_cons]
    rcases hs : splitOn '=' piece with _ | ⟨k, _ | ⟨v, _ | ⟨w, more⟩⟩⟩
    · simp only [parsePairs, pieceDecodable, hs, if_true, List.foldl_cons, legacyPieceSpec, ih]
    · simp only [parsePairs, pieceDecodable, hs, if_true, List.foldl_cons, legacyPieceSpec, ih]
    · cases hk : B.decodeURIComponent (String.mk k) with
      | none =>
        simp [parsePairs, pieceDecodable, hs, hk]
      | some key =>
        cases hv : B.decodeURIComponent (String.mk v) with
        | none => simp [parsePairs, pieceDecodable, hs, hk, hv]
        | some value =>
          simp only [parsePairs, pieceDecodable, hs, hk, hv, Option.isSome_some, Bool.and_self,
            if_true, List.foldl_cons, legacyPieceSpec, ih, convertValue_eq, setProperty]
    · simp only [parsePairs, pieceDecodable, hs, if_true, List.foldl_cons, legacyPieceSpec, ih]

/-- Counterexample to C17 as stated: for the base URL "http://example.com/config#top"
the URL built by the serializer is cut at the `#` of the base, what follows is not
JSON and has no `key=value` piece, and the parse yields the empty object instead of
the settings. -/
theorem parseConfigUrl_base_with_hash :
    parseConfigUrl (sampleBuiltins [DEFAULT_SETTINGS.toObject])
        (getConfigPageUrl (sampleBuiltins [DEFAULT_SETTINGS.toObject]) DEFAULT_SETTINGS
          "http://example.com/config#top") = .object [] ∧
      JsValue.object [] ≠ .object DEFAULT_SETTINGS.toObject := by
  refine ⟨by decide!, by decide!⟩

/-- C17, amended: for every settings object `s` and every base URL that contains no
`#`, on a platform where the URI-encoded JSON text of `s` decodes back to that text
and the text parses back to `s`, `parseConfigUrl` applied to the URL built by the
serializer (base, `#`, URI-encoded JSON of `s`) yields `s`. -/
theorem parseConfigUrl_roundtrip (B : Builtins) (s : Settings) (baseUrl : String)
    (hbase : '#' ∉ baseUrl.data)
    (hdecode : B.decodeURIComponent (B.encodeURIComponent (B.jsonStringify s.toObject)) =
      some (B.jsonStringify s.toObject))
    (hparse : B.jsonParse (B.jsonStringify s.toObject) = some (.object s.toObject)) :
    parseConfigUrl B (getConfigPageUrl B s baseUrl) = .object s.toObject := by
  have hdata : configDataOf (getConfigPageUrl B s baseUrl) =
      some (B.encodeURIComponent (B.jsonStringify s.toObject)) := by
    have h := configDataOf_hash (getConfigPageUrl B s baseUrl) baseUrl.data
      (B.encodeURIComponent (B.jsonStringify s.toObject)).data
      (by simp [getConfigPageUrl, String.data_append]) hbase
    simpa using h
  unfold parseConfigUrl
  simp only [hdata, hdecode, hparse]

/-- Witness for C17, amended: the default settings behind the base "pebblejs://close"
on the sample platform. -/
theorem parseConfigUrl_roundtrip_witness :
    '#' ∉ "pebblejs://close".data ∧
      parseConfigUrl (sampleBuiltins [DEFAULT_SETTINGS.toObject])
        (getConfigPageUrl (sampleBuiltins [DEFAULT_SETTINGS.toObject]) DEFAULT_SETTINGS
          "pebblejs://close") = .object DEFAULT_SETTINGS.toObject :=
  ⟨by decide,
    parseConfigUrl_roundtrip (sampleBuiltins [DEFAULT_SETTINGS.toObject]) DEFAULT_SETTINGS
      "pebblejs://close" (by decide) (by decide!) (by decide!)⟩

/-- Counterexample to C18 as stated: in "a=1&%=2&b=3" the piece "b=3" has exactly one
`=` and a decodable key and value, so the legacy parse of every such piece maps "b"
to 3; the code stops at the undecodable piece "%=2" and returns the object with "a"
alone. And in "__proto__=1&a=2" the decoded key "__proto__" is mapped to nothing. -/
theorem parseConfigUrl_stops_at_undecodable_piece :
    configDataOf "pebblejs://close#a=1&%=2&b=3" = some "a=1&%=2&b=3" ∧
      (sampleBuiltins []).decodeURIComponent "a=1&%=2&b=3" = none ∧
      legacyParseSpec (sampleBuiltins []) (splitOn '&' "a=1&%=2&b=3".data) =
        [("a", .num 1), ("b", .num 3)] ∧
      parseConfigUrl (sampleBuiltins []) "pebblejs://close#a=1&%=2&b=3" =
        .object [("a", .num 1)] ∧
      parseConfigUrl (sampleBuiltins []) "pebblejs://close#__proto__=1&a=2" =
        .object [("a", .num 2)] := by
  refine ⟨by decide, by decide, by decide!, by decide!, by decide!⟩

/-- C18, amended: `parseConfigUrl` returns a value for every input string. With
neither `#` nor `?` in the URL the result is the empty object. Otherwise `configData`
is what follows the first `#`, or without any `#` the first `?`; when it is not
URI-decodable JSON, the result is the legacy key=value parse, as the specification
words it with the key `__proto__` left out, of the `&`-separated pieces that come
before the first piece with exactly one `=` whose key or value is not URI-decodable,
and of all pieces when there is no such piece. -/
theorem parseConfigUrl_legacy (B : Builtins) (configUrl : String) :
    ('#' ∉ configUrl.data → '?' ∉ configUrl.data → parseConfigUrl B configUrl = .object []) ∧
    (∀ pre rest, configUrl.data = pre ++ '#' :: rest → '#' ∉ pre →
      configDataOf configUrl = some (String.mk rest)) ∧
    (∀ pre rest, configUrl.data = pre ++ '?' :: rest → '?' ∉ pre → '#' ∉ configUrl.data →
      configDataOf configUrl = some (String.mk rest)) ∧
    (∀ configData, configDataOf configUrl = some configData →
      (B.decodeURIComponent configData).bind B.jsonParse = none →
        parseConfigUrl B configUrl =
            .object (legacyParseSpec B
              ((splitOn '&' configData.data).takeWhile (pieceDecodable B))) ∧
          ((∀ piece ∈ splitOn '&' configData.data, pieceDecodable B piece = true) →
            parseConfigUrl B configUrl =
              .object (legacyParseSpec B (splitOn '&' configData.data)))) := by
  refine ⟨?_, fun pre rest h1 h2 => configDataOf_hash configUrl pre rest h1 h2,
    fun pre rest h1 h2 h3 => configDataOf_question configUrl pre rest h1 h2 h3, ?_⟩
  · intro h1 h2
    unfold parseConfigUrl configDataOf
    simp only [indexOf_eq_none '#' _ h1, indexOf_eq_none '?' _ h2]
  · intro configData hdata hjson
    have hres : parseConfigUrl B configUrl =
        .object (legacyParseSpec B
          ((splitOn '&' configData.data).takeWhile (pieceDecodable B))) := by
      unfold parseConfigUrl legacyParseSpec
      simp only [hdata, parsePairs_eq_foldl]
      cases hd : B.decodeURIComponent configData with
      | none => rfl
      | some decoded =>
        rw [hd] at hjson
        simp only [Option.some_bind] at hjson
        simp only [hjson]
    refine ⟨hres, ?_⟩
    intro hall
    rw [hres, List.takeWhile_eq_self_iff.mpr hall]

/-- Witness for C18, amended: a fragment that is not JSON, with a number, a boolean, an
escaped blank, a repeated key, a piece with two `=` and a piece with none. -/
theorem parseConfigUrl_legacy_witness :
    configDataOf "pebblejs://close#a=1&c=true&b=hello%20x&a=&d=e=f&g" =
        some "a=1&c=true&b=hello%20x&a=&d=e=f&g" ∧
      parseConfigUrl (sampleBuiltins []) "pebblejs://close#a=1&c=true&b=hello%20x&a=&d=e=f&g" =
        .object [("a", .str ""), ("c", .bool true), ("b", .str "hello x")] :=
  ⟨by decide,
    (((parseConfigUrl_legacy (sampleBuiltins [])
        "pebblejs://close#a=1&c=true&b=hello%20x&a=&d=e=f&g").2.2.2
        "a=1&c=true&b=hello%20x&a=&d=e=f&g" (by decide) (by decide)).2
        (by decide)).trans (by decide!)⟩

/-! ## The Iran rectangle of `suggestMethodByRegion` -/

/-- Counterexample to C22 as stated: (30, 60) lies in the Iran rectangle and has
longitude ≥ 60, yet it yields "umm_al_qura" and not "karachi": it also lies on the
edge of the Gulf rectangle, which is tested before the South-Asia rectangle. -/
theorem iran_edge_yields_gulf :
    ((25 : ℚ) ≤ 30 ∧ (30 : ℚ) ≤ 40 ∧ (44 : ℚ) ≤ 60 ∧ (60 : ℚ) ≤ 63) ∧ (60 : ℚ) ≥ 60 ∧
      suggestMethodByRegion 30 60 = "umm_al_qura" ∧
      suggestMethodByRegion 30 60 ≠ "karachi" := by
  refine ⟨by norm_num, by norm_num, by decide!, by decide!⟩

/-- C22, amended: `suggestMethodByRegion` returns "tehran" for exactly the coordinates
with 35 < latitude ≤ 40 and 44 ≤ longitude < 60; every point of the Iran rectangle
(25..40 N, 44..63 E) with latitude ≤ 35 and longitude ≤ 60 yields "umm_al_qura"; and
every other point of it with longitude ≥ 60, that is with longitude > 60 or with
latitude > 35, yields "karachi". -/
theorem suggestMethodByRegion_tehran (latitude longitude : ℚ) :
    (suggestMethodByRegion latitude longitude = "tehran" ↔
      (35 < latitude ∧ latitude ≤ 40 ∧ 44 ≤ longitude ∧ longitude < 60)) ∧
    (25 ≤ latitude → latitude ≤ 35 → 44 ≤ longitude → longitude ≤ 60 →
      suggestMethodByRegion latitude longitude = "umm_al_qura") ∧
    (25 ≤ latitude → latitude ≤ 40 → 60 ≤ longitude → longitude ≤ 63 →
      (60 < longitude ∨ 35 < latitude) →
      suggestMethodByRegion latitude longitude = "karachi") := by
  refine ⟨⟨?_, ?_⟩, ?_, ?_⟩
  · intro h
    unfold suggestMethodByRegion at h
    split at h
    · exact absurd h (by decide)
    · split at h
      · exact absurd h (by decide)
      · split at h
        · exact absurd h (by decide)
        · split at h
          · exact absurd h (by decide)
          · split at h
            · rename_i hna hgulf hegypt hsouth hiran
              obtain ⟨h1, h2, h3, h4⟩ := hiran
              have hlon : longitude < 60 := by
                by_contra hc
                exact hsouth ⟨by linarith, h2, by linarith, by linarith⟩
              have hlat : 35 < latitude := by
                by_contra hc
                exact hgulf ⟨by linarith, by linarith, by linarith, by linarith⟩
              exact ⟨hlat, h2, h3, hlon⟩
            · split at h
              · exact absurd h (by decide)
              · exact absurd h (by decide)
  · rintro ⟨h1, h2, h3, h4⟩
    unfold suggestMethodByRegion
    rw [if_neg (by rintro ⟨_, _, _, h⟩; linarith),
      if_neg (by rintro ⟨_, h, _, _⟩; linarith),
      if_neg (by rintro ⟨_, h, _, _⟩; linarith),
      if_neg (by rintro ⟨_, _, h, _⟩; linarith),
      if_pos ⟨by linarith, h2, h3, by linarith⟩]
  · intro h1 h2 h3 h4
    unfold suggestMethodByRegion
    rw [if_neg (by rintro ⟨_, _, _, h⟩; linarith),
      if_pos ⟨by linarith, h2, by linarith, h4⟩]
  · intro h1 h2 h3 h4 hor
    unfold suggestMethodByRegion
    rw [if_neg (by rintro ⟨_, _, _, h⟩; linarith),
      if_neg (by
        rintro ⟨_, hlat, _, hlon⟩
        rcases hor with h | h <;> linarith),
      if_neg (by rintro ⟨_, _, _, h⟩; linarith),
      if_pos ⟨by linarith, h2, h3, by linarith⟩]

/-- Witness for C22, amended: Tehran itself, (35.6892, 51.389), yields "tehran";
(30, 50) yields "umm_al_qura"; (30, 61) yields "karachi". -/
theorem suggestMethodByRegion_tehran_witness :
    suggestMethodByRegion 35.6892 51.389 = "tehran" ∧
      suggestMethodByRegion 30 50 = "umm_al_qura" ∧
      suggestMethodByRegion 30 61 = "karachi" :=
  ⟨(suggestMethodByRegion_tehran 35.6892 51.389).1.mpr
      ⟨by norm_num, by norm_num, by norm_num, by norm_num⟩,
    (suggestMethodByRegion_tehran 30 50).2.1 (by norm_num) (by norm_num) (by norm_num)
      (by norm_num),
    (suggestMethodByRegion_tehran 30 61).2.2 (by norm_num) (by norm_num) (by norm_num)
      (by norm_num) (Or.inl (by norm_num))⟩

/-! ## Claims on `formatLocationName` -/

theorem truthyString_ne_empty (a : Option JsString) (s : JsString)
    (h : truthyString a = some s) : s ≠ [] := by
  cases a with
  | none => simp [truthyString] at h
  | some n =>
    by_cases hn : n = []
    · simp [truthyString, hn] at h
    · simp only [truthyString, if_neg hn, Option.some.injEq] at h
      rw [← h]
      exact hn

theorem orString_ne_empty_iff (a : Option JsString) (b : JsString) :
    orString a b ≠ [] ↔ (truthyString a).isSome = true ∨ b ≠ [] := by
  unfold orString
  cases h : truthyString a with
  | none => simp
  | some s => simpa using truthyString_ne_empty a s h

theorem substringTo_append_dots_length (city : JsString) :
    (substringTo city 24 ++ jsString "...").length ≤ 27 := by
  have h3 : (jsString "...").length = 3 := by decide
  rw [List.length_append, h3]
  unfold substringTo
  simp only [List.length_take]
  omega

/-- C21: for every response whose address has a city-like field (one of `city`,
`town`, `village`, `municipality`, `county` present and not empty) and a country code
(present and not empty, with a non-empty upper-case form), `formatLocationName`
returns at most 28 characters, counted as JavaScript counts them, in UTF-16 code
units: the combined "city, COUNTRY" with the country code upper-cased when that has
at most 28, otherwise the first 24 of the city followed by "..."; a falsy response, a
response without address, and an address with neither a city-like field nor a country
code give "Unknown". -/
theorem formatLocationName_bounded (toUpperCase : JsString → JsString) (addr : Address)
    (code : JsString)
    (hupper : ∀ s, s ≠ [] → toUpperCase s ≠ [])
    (hcity : (truthyString addr.city).isSome = true ∨ (truthyString addr.town).isSome = true ∨
      (truthyString addr.village).isSome = true ∨
      (truthyString addr.municipality).isSome = true ∨
      (truthyString addr.county).isSome = true)
    (hcode : addr.country_code = some code) (hne : code ≠ []) :
    (formatLocationName toUpperCase (some ⟨some addr⟩)).length ≤ 28 ∧
      ((cityOf addr ++ jsString ", " ++ toUpperCase code).length ≤ 28 →
        formatLocationName toUpperCase (some ⟨some addr⟩) =
          cityOf addr ++ jsString ", " ++ toUpperCase code) ∧
      (28 < (cityOf addr ++ jsString ", " ++ toUpperCase code).length →
        formatLocationName toUpperCase (some ⟨some addr⟩) =
          (cityOf addr).take 24 ++ jsString "...") ∧
      formatLocationName toUpperCase none = jsString "Unknown" ∧
      formatLocationName toUpperCase (some ⟨none⟩) = jsString "Unknown" ∧
      (∀ other : Address, cityOf other = [] → truthyString other.country_code = none →
        formatLocationName toUpperCase (some ⟨some other⟩) = jsString "Unknown") := by
  have hc : cityOf addr ≠ [] := by
    unfold cityOf
    simp only [orString_ne_empty_iff]
    tauto
  have hcountry : countryOf toUpperCase addr = toUpperCase code := by
    unfold countryOf truthyString
    simp only [hcode, if_neg hne]
  have hcn : countryOf toUpperCase addr ≠ [] := by
    rw [hcountry]
    exact hupper code hne
  have hform : formatLocationName toUpperCase (some ⟨some addr⟩) =
      if (cityOf addr ++ jsString ", " ++ toUpperCase code).length > 28 then
        substringTo (cityOf addr) 24 ++ jsString "..."
      else cityOf addr ++ jsString ", " ++ toUpperCase code := by
    unfold formatLocationName
    simp only
    rw [if_pos ⟨hc, hcn⟩, hcountry]
  refine ⟨?_, ?_, ?_, rfl, rfl, ?_⟩
  · rw [hform]
    split
    · exact le_trans (substringTo_append_dots_length _) (by decide)
    · rename_i hle
      exact not_lt.mp hle
  · intro hle
    rw [hform, if_neg (not_lt.mpr hle)]
  · intro hgt
    rw [hform, if_pos hgt]
    rfl
  · intro other hcityEmpty hcodeNone
    have hco : countryOf toUpperCase other = [] := by
      unfold countryOf
      rw [hcodeNone]
    unfold formatLocationName
    simp only [hcityEmpty, hco]
    rfl

/-- Witness for C21: a city of 14 characters U+20000, 28 code units, in Great Britain;
the combined name has 32 code units and the result is the first 24 code units of the
city, that is 12 characters, and "...". -/
theorem formatLocationName_bounded_witness :
    (∀ s, s ≠ [] → sampleToUpperCase s ≠ []) ∧
      (cityOf sampleAstralCity ++ jsString ", " ++ sampleToUpperCase (jsString "gb")).length =
        32 ∧
      formatLocationName sampleToUpperCase (some ⟨some sampleAstralCity⟩) =
        jsString (String.mk (List.replicate 12 (Char.ofNat 131072))) ++ jsString "..." ∧
      (formatLocationName sampleToUpperCase (some ⟨some sampleAstralCity⟩)).length ≤ 28 ∧
      formatLocationName sampleToUpperCase (some ⟨some sampleLongVillage⟩) =
        jsString "Llanfairpwllgwyngyllgoge..." ∧
      formatLocationName sampleToUpperCase (some ⟨some sampleLondon⟩) =
        jsString "London, GB" := by
  have hupper : ∀ s, s ≠ [] → sampleToUpperCase s ≠ [] := by
    intro s hs h
    apply hs
    unfold sampleToUpperCase at h
    simpa using h
  have h := formatLocationName_bounded sampleToUpperCase sampleAstralCity (jsString "gb")
    hupper (by decide) rfl (by decide)
  have h2 := formatLocationName_bounded sampleToUpperCase sampleLondon (jsString "gb")
    hupper (by decide) rfl (by decide)
  exact ⟨hupper, by decide, (h.2.2.1 (by decide)).trans (by decide), h.1, by decide,
    (h2.2.1 (by decide)).trans (by decide)⟩

end PrayerKeeper
